import Mathlib

/-!
# Verification of the xguard ML bot-scoring pipeline

A shallow embedding, in Lean 4, of the Python ML service of the `xguard`
repository (feature extraction, rule-based classification, blacklist
checking, prediction orchestration, model lifecycle and training
orchestration), together with theorems settling the specification claims.

Conventions used throughout:
* Python floats are embedded as `ℚ` (all arithmetic appearing in the source
  is addition, multiplication, comparison, `min`/`max`, which `ℚ` models
  exactly; transcendental library calls are abstracted as oracles).
* Python dicts with optional keys become structures with `Option` fields;
  a dict read `d.get(k, default)` becomes `(field).getD default`.
* A falsy value (`None`, `''`, `{}`, `[]`) that is only ever tested for
  truthiness is represented by `none` / `[]`.
* `async` collaborator calls (HTTP, Redis, Postgres, the trained model)
  are parameters of the embedded function: each call site is given the
  outcome (`Except` for a call that may raise) as input, so a theorem
  quantifying over the environment covers every behaviour of the
  collaborator permitted by its type.
* Python exceptions are `Except String`; a `try/except` block becomes a
  `match` on the `Except` value.
-/

namespace XGuard

/-! ## Generic helpers shared by the embeddings -/

/-- `needle` occurs as a contiguous sublist of the second argument. -/
def listIsInfix (needle : List Char) : List Char → Bool
  | [] => needle.isEmpty
  | c :: rest => needle.isPrefixOf (c :: rest) || listIsInfix needle rest

/-- Python `sub in s` (substring containment). -/
def strContains (s sub : String) : Bool :=
  listIsInfix sub.data s.data

/-- Python `float(b)` for a boolean expression. -/
def b2q (b : Bool) : ℚ :=
  if b then 1 else 0

/-- Python dict lookup `d.get(k)` for a dict built from an association list
(later bindings overwrite earlier ones, hence the `reverse`). -/
def dictGet {α : Type} (l : List (String × α)) (k : String) : Option α :=
  l.reverse.lookup k

/-- Python `k in d` for a dict built from an association list. -/
def dictMem (l : List (String × String)) (k : String) : Bool :=
  l.any (fun p => p.1 == k)

/-- Number of occurrences of a character in a string (`s.count(c)`). -/
def countChar (s : String) (c : Char) : Nat :=
  s.data.count c

/-- Python truthiness of an optional string value (`None` and `''` are
falsy). -/
def strTruthy (s : Option String) : Bool :=
  s.getD "" ≠ ""

/-! ## Blacklist service — `src/services/blacklist_service.py`

`BlacklistService.is_blacklisted` performs one HTTP GET against the
backend.  The outcome of that call (including the subsequent `.json()`
parse, which can itself raise) is the input of the embedding. -/

namespace Blacklist

/-- Outcome of `await self.client.get(url)` followed by `response.json()`:
either a response with a status code and the parsed `isBlacklisted` field
(`.error` when the body does not parse as a JSON object, `.ok none` when
the field is absent), or one of the exception classes caught by the
source. -/
inductive HttpOutcome where
  | response (statusCode : Nat) (isBlacklistedField : Except String (Option Bool))
  | timeoutExc
  | connectExc
  | otherExc (msg : String)

/-- `BlacklistService.is_blacklisted` (lines 17–50): returns the
`isBlacklisted` field of a 200 response (default `False`), and `False` on
status 400, on any other status, on timeout, on connection failure, and on
any other exception (the body-parse error is caught by the final
`except Exception`). -/
def is_blacklisted (outcome : HttpOutcome) : Bool :=
  match outcome with
  | .response statusCode fieldResult =>
      if statusCode = 200 then
        match fieldResult with
        | .ok fieldValue => fieldValue.getD false
        | .error _ => false      -- `.json()` raised: caught by `except Exception`
      else if statusCode = 400 then
        false                    -- "Invalid IP format" branch
      else
        false                    -- generic non-200 branch
  | .timeoutExc => false         -- `except httpx.TimeoutException`
  | .connectExc => false         -- `except httpx.ConnectError`
  | .otherExc _ => false         -- `except Exception`

end Blacklist

/-! ## Training promotion decision — `src/services/training_service.py`

`TrainingService._should_deploy_model` compares the candidate metrics with
the metrics recorded for the currently active model
(`self.model_manager.get_metrics()`, which returns `{}` when no metadata
is loaded — a falsy dict, embedded as `none`). -/

namespace Training

/-- The metrics dict as read by `_should_deploy_model`: only the keys
`f1_score` and `roc_auc` are consulted, each defaulting to `0` when
absent. -/
structure MetricsDict where
  f1_score : Option ℚ
  roc_auc : Option ℚ

/-- `TrainingService._should_deploy_model` (lines 186–204): deploy when no
current metrics exist, otherwise when the candidate value of `f1_score` or
`roc_auc` strictly exceeds `1.02` times the current value (the loop over
`key_metrics` returns `True` on the first metric passing the test). -/
def should_deploy_model (current_metrics : Option MetricsDict)
    (new_metrics : MetricsDict) : Bool :=
  match current_metrics with
  | none => true                 -- "No current model, deploy new one"
  | some current =>
      [(current.f1_score, new_metrics.f1_score),
       (current.roc_auc, new_metrics.roc_auc)].any
        (fun p => decide (p.2.getD 0 > p.1.getD 0 * (102 / 100 : ℚ)))

end Training

/-! ## Model manager — backup `src/ml/model_manager.py`

`ModelManager.load_model` reads `model_v{version}.pkl` and
`metadata_v{version}.json` from the artifact store; the existence check
happens before any field of the manager is assigned.  The store's contents
and the pickled/serialized payloads are type parameters (they are opaque
artifacts). -/

namespace ModelManager

/-- The pickled dict written by `save_model`: the model object plus the
`feature_names` key (read back with default `[]`). -/
structure PickleData (Model : Type) where
  model : Model
  feature_names : Option (List String)

/-- The mutable fields of `ModelManager` touched by `load_model`. -/
structure ManagerState (Model Meta : Type) where
  current_model : Option Model
  current_version : Option String
  loaded_at : Option Nat
  feature_names : Option (List String)
  model_metadata : Option Meta

/-- The on-disk artifact store: contents of `model_v{v}.pkl` and
`metadata_v{v}.json`, when those files exist. -/
structure FileStore (Model Meta : Type) where
  modelFile : String → Option (PickleData Model)
  metadataFile : String → Option Meta

/-- The `FileNotFoundError` raised for a missing version. -/
inductive LoadError where
  | fileNotFound (msg : String)

/-- `ModelManager.load_model` (lines 55–77).  The `Except` error case
carries the manager state at the moment the exception is raised, making
partial mutation observable: the source raises `FileNotFoundError` before
assigning any field, then assigns `current_model`, `feature_names`,
`current_version`, `loaded_at`, and finally `model_metadata` when the
metadata file exists. -/
def load_model {Model Meta : Type} (store : FileStore Model Meta)
    (s : ManagerState Model Meta) (version : String) (now : Nat) :
    Except (LoadError × ManagerState Model Meta) (ManagerState Model Meta) :=
  match store.modelFile version with
  | none =>
      .error (.fileNotFound ("Model version " ++ version ++ " not found"), s)
  | some model_data =>
      let s := { s with
        current_model := some model_data.model,
        feature_names := some (model_data.feature_names.getD []),
        current_version := some version,
        loaded_at := some now }
      match store.metadataFile version with
      | none => .ok s
      | some meta => .ok { s with model_metadata := some meta }

end ModelManager

/-! ## Prediction service — backup `src/services/prediction_service.py`

`PredictionService.predict` orchestrates one scoring call.  Its
collaborators (blacklist check, feature extractor, active model, Redis,
blacklist add) are dynamic calls whose outcomes form the environment of
the embedding; the two inner helpers `_cache_prediction` and
`_add_to_blacklist_if_bot` contain their own `try/except Exception` and
therefore never propagate an exception into `predict`'s body.  A `Trace`
records which collaborators the call reached. -/

namespace Prediction

/-- The prediction dict returned by `predict`.  `blacklisted` and `reason`
are `Option` because the error-path dict carries neither key. -/
structure Decision where
  isBot : Bool
  confidence : ℚ
  features : List (String × ℚ)
  modelVersion : String
  targetingAware : Bool
  blacklisted : Option Bool
  reason : Option String
deriving DecidableEq

/-- The fields of `visitor_data` read by the prediction service itself. -/
structure VisitorData where
  ip : String
  userAgent : String
  headers : List (String × String)
  fingerprintHash : String

/-- `campaign_targeting`, when truthy: only its `campaignId` key is read
by the service. -/
structure CampaignTargeting where
  campaignId : Option String

/-- Outcomes of the collaborator calls made during one `predict` call:
the blacklist check (which, per `is_blacklisted`, returns a `Bool` and
never raises), feature extraction, the active model's prediction, the
Redis `setex`, and the backend blacklist-add. -/
structure Collaborators where
  is_blacklisted : Bool
  extract_features : Except String (List ℚ)
  feature_names : List String
  model_predict : List ℚ → Except String (Bool × ℚ)
  current_version : Option String
  cache_setex : Except String Unit
  blacklist_add : Except String Bool
  /-- Python `f"{confidence:.2f}"` float formatting, abstracted. -/
  format2f : ℚ → String

/-- Which collaborators a `predict` call invoked, and the blacklist-add
request it issued (ip, reason, confidence, expiration hours), if any. -/
structure Trace where
  extractorInvoked : Bool
  classifierInvoked : Bool
  cacheWriteInvoked : Bool
  blacklistAddRequest : Option (String × String × ℚ × Nat)

/-- `PredictionService._get_detection_reason` (lines 197–226). -/
def get_detection_reason (features : List (String × ℚ)) (confidence : ℚ)
    (format2f : ℚ → String) : String :=
  if features.isEmpty then
    "ML detection (confidence: " ++ format2f confidence ++ ")"
  else
    let reasons : List String := []
    let reasons := if (dictGet features "ua_bot_keyword").getD 0 > 1 / 2 then
      reasons ++ ["Bot keywords in user agent"] else reasons
    let reasons := if (dictGet features "ua_suspicious_pattern").getD 0 > 1 / 2 then
      reasons ++ ["Suspicious user agent pattern"] else reasons
    let reasons := if (dictGet features "is_datacenter_ip").getD 0 > 1 / 2 then
      reasons ++ ["Datacenter IP address"] else reasons
    let reasons := if (dictGet features "header_anomaly_score").getD 0 > 7 / 10 then
      reasons ++ ["Abnormal HTTP headers"] else reasons
    let reasons := if (dictGet features "country_risk_score").getD 0 > 3 / 5 then
      reasons ++ ["High-risk country"] else reasons
    let reasons := if (dictGet features "device_browser_mismatch").getD 0 > 1 / 2 then
      reasons ++ ["Device/browser mismatch"] else reasons
    let reasons := if reasons.isEmpty then
      ["ML pattern analysis (confidence: " ++ format2f confidence ++ ")"] else reasons
    String.intercalate " | " reasons

/-- `PredictionService._get_blacklist_reason` (lines 163–186); the
`user_agent` argument arrives already lower-cased. -/
def get_blacklist_reason (user_agent : String)
    (headers : List (String × String)) (confidence : ℚ)
    (format2f : ℚ → String) : String :=
  let reasons : List String := []
  let reasons := if strContains user_agent "python" ||
      strContains user_agent "curl" || strContains user_agent "wget" then
    reasons ++ ["Automated tool detected"] else reasons
  let reasons := if strContains user_agent "headless" ||
      strContains user_agent "phantom" then
    reasons ++ ["Headless browser detected"] else reasons
  let reasons := if strContains user_agent "selenium" ||
      strContains user_agent "webdriver" then
    reasons ++ ["Web automation detected"] else reasons
  let reasons := if strContains user_agent "bot" ||
      strContains user_agent "crawler" || strContains user_agent "spider" then
    reasons ++ ["Bot/crawler detected"] else reasons
  let reasons := if headers.length < 5 then
    reasons ++ ["Suspicious header pattern"] else reasons
  let reasons := if reasons.isEmpty then
    ["ML model detection (confidence: " ++ format2f confidence ++ ")"]
    else reasons
  String.intercalate " | " reasons

/-- `PredictionService._get_blacklist_duration` (lines 188–195). -/
def get_blacklist_duration (confidence : ℚ) : Nat :=
  if confidence ≥ 95 / 100 then 72
  else if confidence ≥ 85 / 100 then 48
  else 24

/-- The neutral prediction dict built by `predict`'s `except` branch
(lines 90–96): `features` is empty and the `blacklisted`/`reason` keys
are absent. -/
def neutralDecision : Decision :=
  { isBot := false, confidence := 1 / 2, features := [],
    modelVersion := "error", targetingAware := false,
    blacklisted := none, reason := none }

/-- The body of `PredictionService.predict` (lines 25–85), i.e. the
contents of the `try` block: either a decision dict or the exception that
escaped, together with the collaborator trace.  `_cache_prediction` and
`_add_to_blacklist_if_bot` swallow the outcomes `cache_setex` and
`blacklist_add` internally, so neither can produce the `.error` case. -/
def predictBody (c : Collaborators) (visitor : VisitorData)
    (campaign_targeting : Option CampaignTargeting) :
    Except String Decision × Trace :=
  if c.is_blacklisted then
    (.ok { isBot := true, confidence := 1,
           features := [("blacklisted", 1)],
           modelVersion := "blacklist_v1",
           targetingAware := campaign_targeting.isSome,
           blacklisted := some true,
           reason := some "IP found in blacklist" },
     { extractorInvoked := false, classifierInvoked := false,
       cacheWriteInvoked := false, blacklistAddRequest := none })
  else
    match c.extract_features with
    | .error e =>
        (.error e,
         { extractorInvoked := true, classifierInvoked := false,
           cacheWriteInvoked := false, blacklistAddRequest := none })
    | .ok features =>
        match c.model_predict features with
        | .error e =>
            (.error e,
             { extractorInvoked := true, classifierInvoked := true,
               cacheWriteInvoked := false, blacklistAddRequest := none })
        | .ok (is_bot, confidence) =>
            let feature_values := c.feature_names.zip features
            -- `await self._cache_prediction(...)`: internal errors swallowed
            let blacklistAddRequest :=
              if is_bot && decide (confidence > 7 / 10) then
                -- `await self._add_to_blacklist_if_bot(...)`: internal
                -- errors swallowed; the issued request is recorded
                some (visitor.ip,
                  get_blacklist_reason visitor.userAgent.toLower
                    visitor.headers confidence c.format2f,
                  confidence, get_blacklist_duration confidence)
              else none
            (.ok { isBot := is_bot, confidence := confidence,
                   features := feature_values,
                   modelVersion := c.current_version.getD "unknown",
                   targetingAware := campaign_targeting.isSome,
                   blacklisted := some false,
                   reason := some (get_detection_reason feature_values
                     confidence c.format2f) },
             { extractorInvoked := true, classifierInvoked := true,
               cacheWriteInvoked := true,
               blacklistAddRequest := blacklistAddRequest })

/-- `PredictionService.predict`: the `try/except` wrapper — any exception
escaping the body is logged and converted into `neutralDecision`. -/
def predict (c : Collaborators) (visitor : VisitorData)
    (campaign_targeting : Option CampaignTargeting) : Decision × Trace :=
  match predictBody c visitor campaign_targeting with
  | (.ok d, trace) => (d, trace)
  | (.error _, trace) => (neutralDecision, trace)

end Prediction

/-! ## Training runner — `src/services/training_service.py`

`TrainingService.run_training` guards on the `is_training` flag, sets it,
and clears it in a `finally`.  Collaborator outcomes (Postgres queries,
the trainer, the model manager) are the environment; a trace records
which steps ran.  `_mark_samples_as_used` is `pass` and
`_update_training_metrics` swallows its own exceptions, so neither can
fail the run. -/

namespace Training

/-- The exit path a `run_training` call took. -/
inductive RunOutcome where
  | skippedAlreadyRunning
  | abortedInsufficientSamples (current required : Nat)
  | abortedNoData
  | completedDeployed (version : String)
  | completedNotDeployed (version : String)
  | failed (e : String)

/-- Which steps of the training pipeline a call reached. -/
structure TrainTrace where
  sampleCountQueried : Bool
  dataLoadInvoked : Bool
  trainerInvoked : Bool
  saveInvoked : Bool
  deployInvoked : Bool
  cleanupInvoked : Bool

/-- The trace of a call that ran no pipeline step. -/
def emptyTrainTrace : TrainTrace :=
  { sampleCountQueried := false, dataLoadInvoked := false,
    trainerInvoked := false, saveInvoked := false,
    deployInvoked := false, cleanupInvoked := false }

/-- Outcomes of the collaborator calls of one training run. -/
structure TrainEnv (Model : Type) where
  min_samples_for_training : Nat
  /-- `self._get_training_sample_count()` (Postgres count query). -/
  get_training_sample_count : Except String Nat
  /-- `self._load_training_data()`: `(X, y, sample_ids)` after balancing;
  unparseable rows are already dropped inside it. -/
  load_training_data : Except String (List (List ℚ) × List Nat × List String)
  /-- `self.trainer.train(...)`: the fitted model and its metrics. -/
  trainer_train : Except String (Model × MetricsDict)
  /-- `self.model_manager.save_model(...)`: the new version id. -/
  save_model : Except String String
  /-- `self.model_manager.get_metrics()` (pure read; `{}` ↦ `none`). -/
  current_metrics : Option MetricsDict
  /-- `await self.model_manager.load_model(version)` on deployment. -/
  deploy_load_model : Except String Unit
  /-- `self.model_manager.cleanup_old_versions(keep_versions=5)`. -/
  cleanup_old_versions : Except String Unit

/-- The `try`/`except` body of `run_training` (lines 70–123), entered with
the flag freshly set: returns the exit path and the step trace. -/
def runTrainingBody {Model : Type} (env : TrainEnv Model) :
    RunOutcome × TrainTrace :=
  match env.get_training_sample_count with
  | .error e => (.failed e, { emptyTrainTrace with sampleCountQueried := true })
  | .ok sample_count =>
      if sample_count < env.min_samples_for_training then
        (.abortedInsufficientSamples sample_count env.min_samples_for_training,
         { emptyTrainTrace with sampleCountQueried := true })
      else
        match env.load_training_data with
        | .error e =>
            (.failed e, { emptyTrainTrace with
              sampleCountQueried := true, dataLoadInvoked := true })
        | .ok (X, _y, _sample_ids) =>
            if X.length = 0 then
              (.abortedNoData, { emptyTrainTrace with
                sampleCountQueried := true, dataLoadInvoked := true })
            else
              match env.trainer_train with
              | .error e =>
                  (.failed e, { emptyTrainTrace with
                    sampleCountQueried := true, dataLoadInvoked := true,
                    trainerInvoked := true })
              | .ok (_model, metrics) =>
                  match env.save_model with
                  | .error e =>
                      (.failed e, { emptyTrainTrace with
                        sampleCountQueried := true, dataLoadInvoked := true,
                        trainerInvoked := true, saveInvoked := true })
                  | .ok version =>
                      if should_deploy_model env.current_metrics metrics then
                        match env.deploy_load_model with
                        | .error e =>
                            (.failed e,
                             { sampleCountQueried := true,
                               dataLoadInvoked := true, trainerInvoked := true,
                               saveInvoked := true, deployInvoked := true,
                               cleanupInvoked := false })
                        | .ok _ =>
                            match env.cleanup_old_versions with
                            | .error e =>
                                (.failed e,
                                 { sampleCountQueried := true,
                                   dataLoadInvoked := true,
                                   trainerInvoked := true, saveInvoked := true,
                                   deployInvoked := true,
                                   cleanupInvoked := true })
                            | .ok _ =>
                                (.completedDeployed version,
                                 { sampleCountQueried := true,
                                   dataLoadInvoked := true,
                                   trainerInvoked := true, saveInvoked := true,
                                   deployInvoked := true,
                                   cleanupInvoked := true })
                      else
                        (.completedNotDeployed version,
                         { sampleCountQueried := true, dataLoadInvoked := true,
                           trainerInvoked := true, saveInvoked := true,
                           deployInvoked := false, cleanupInvoked := false })

/-- `TrainingService.run_training` (lines 62–125): observe the
`is_training` flag, skip when set, otherwise set it, run the body, and —
in the `finally` — clear it on every exit path.  The result is the final
flag value, the exit path, and the step trace. -/
def run_training {Model : Type} (env : TrainEnv Model) (is_training : Bool) :
    Bool × RunOutcome × TrainTrace :=
  if is_training then
    (is_training, .skippedAlreadyRunning, emptyTrainTrace)
  else
    -- `self.is_training = True` … `finally: self.is_training = False`
    (false, runTrainingBody env)

end Training

/-! ## Rule-based classifier — backup `src/ml/rule_based_model.py`

`RuleBasedBotDetector._calculate_bot_score` builds
`dict(zip(self.feature_names, features))` and tallies five weighted
category scores, each capped at `1.0` by `min`, the weighted sum finally
clamped into `[0, 1]`. -/

namespace RuleBased

/-- `RuleBasedBotDetector.feature_names` (lines 13–26), in source order. -/
def feature_names : List String :=
  ["ua_length", "ua_bot_keyword", "ua_crawler_keyword",
   "ua_missing_browser", "ua_outdated_browser", "ua_suspicious_pattern",
   "header_count", "has_accept_language", "has_accept_encoding",
   "has_referer", "has_dnt", "has_proxy_headers", "header_anomaly_score",
   "is_datacenter_ip", "geo_missing", "country_risk_score",
   "city_population_log", "timezone_mismatch",
   "is_mobile", "is_tablet", "is_desktop", "is_unknown_device",
   "browser_market_share", "os_market_share", "device_browser_mismatch",
   "request_hour", "request_day_of_week", "session_duration",
   "page_views_per_minute", "click_pattern_score",
   "ip_reputation_score", "asn_type_score", "connection_type_score",
   "tls_fingerprint_common", "tcp_fingerprint_match"]

/-- `dict(zip(self.feature_names, features))` followed by
`feature_dict.get(name, default)` (`zip` truncates to the shorter list;
the names are unique, so first-match lookup is dict lookup). -/
def featureGet (features : List ℚ) (name : String) (default : ℚ) : ℚ :=
  ((feature_names.zip features).lookup name).getD default

/-- Rule 1: user-agent analysis (weight 0.3), capped at 1. -/
def ua_category_score (features : List ℚ) : ℚ :=
  let ua_score : ℚ := 0
  let ua_score := if featureGet features "ua_bot_keyword" 0 > 1 / 2 then
    ua_score + 4 / 5 else ua_score
  let ua_score := if featureGet features "ua_crawler_keyword" 0 > 1 / 2 then
    ua_score + 9 / 10 else ua_score
  let ua_score := if featureGet features "ua_suspicious_pattern" 0 > 1 / 2 then
    ua_score + 7 / 10 else ua_score
  let ua_score := if featureGet features "ua_missing_browser" 0 > 1 / 2 then
    ua_score + 1 / 2 else ua_score
  let ua_score := if featureGet features "ua_outdated_browser" 0 > 1 / 2 then
    ua_score + 3 / 5 else ua_score
  let ua_length := featureGet features "ua_length" 100
  let ua_score := if ua_length < 20 then ua_score + 3 / 5
    else if ua_length > 500 then ua_score + 2 / 5 else ua_score
  min ua_score 1

/-- Rule 2: header analysis (weight 0.25), capped at 1. -/
def header_category_score (features : List ℚ) : ℚ :=
  let header_score : ℚ := 0
  let header_score :=
    header_score + featureGet features "header_anomaly_score" 0 * (12 / 10)
  let header_score := if featureGet features "has_accept_language" 0 < 1 / 2 then
    header_score + 2 / 5 else header_score
  let header_score := if featureGet features "has_accept_encoding" 0 < 1 / 2 then
    header_score + 3 / 10 else header_score
  let header_score := if featureGet features "has_referer" 0 < 1 / 2 then
    header_score + 1 / 5 else header_score
  let header_score := if featureGet features "has_proxy_headers" 0 > 1 / 2 then
    header_score + 1 / 2 else header_score
  let header_count := featureGet features "header_count" 10
  let header_score := if header_count < 5 then header_score + 2 / 5
    else if header_count > 25 then header_score + 1 / 5 else header_score
  min header_score 1

/-- Rule 3: geo/IP analysis (weight 0.2), capped at 1. -/
def geo_category_score (features : List ℚ) : ℚ :=
  let geo_score : ℚ := 0
  let geo_score := if featureGet features "is_datacenter_ip" 0 > 1 / 2 then
    geo_score + 4 / 5 else geo_score
  let geo_score :=
    geo_score + featureGet features "country_risk_score" (1 / 5) * (4 / 5)
  let geo_score := if featureGet features "geo_missing" 0 > 1 / 2 then
    geo_score + 3 / 10 else geo_score
  min geo_score 1

/-- Rule 4: device/browser analysis (weight 0.15), capped at 1. -/
def device_category_score (features : List ℚ) : ℚ :=
  let device_score : ℚ := 0
  let device_score := if featureGet features "device_browser_mismatch" 0 > 1 / 2 then
    device_score + 3 / 5 else device_score
  let device_score := if featureGet features "is_unknown_device" 0 > 1 / 2 then
    device_score + 2 / 5 else device_score
  let browser_share := featureGet features "browser_market_share" (1 / 2)
  let device_score := if browser_share < 1 / 100 then
    device_score + 1 / 2 else device_score
  min device_score 1

/-- Rule 5: network analysis (weight 0.1), capped at 1. -/
def network_category_score (features : List ℚ) : ℚ :=
  let network_score : ℚ := 0
  let network_score :=
    network_score + featureGet features "asn_type_score" (1 / 5) * (1 / 2)
  let network_score := if featureGet features "ip_reputation_score" (1 / 2) > 7 / 10 then
    network_score + 3 / 5 else network_score
  min network_score 1

/-- `RuleBasedBotDetector._calculate_bot_score` (lines 58–154): the five
weighted category tallies accumulated into `score`, then
`max(0.0, min(1.0, score))`. -/
def calculate_bot_score (features : List ℚ) : ℚ :=
  let score := ua_category_score features * (3 / 10)
    + header_category_score features * (1 / 4)
    + geo_category_score features * (1 / 5)
    + device_category_score features * (3 / 20)
    + network_category_score features * (1 / 10)
  max 0 (min 1 score)

/-- `RuleBasedBotDetector.predict` (lines 32–43) on a batch of rows:
`int(score > 0.5)` per row. -/
def predict (rows : List (List ℚ)) : List Nat :=
  rows.map (fun feature_row =>
    if calculate_bot_score feature_row > 1 / 2 then 1 else 0)

/-- `RuleBasedBotDetector.predict_proba` (lines 45–56):
`[human_score, bot_score]` per row. -/
def predict_proba (rows : List (List ℚ)) : List (List ℚ) :=
  rows.map (fun feature_row =>
    let bot_score := calculate_bot_score feature_row
    [1 - bot_score, bot_score])

/-- The claim's extremal vector, in `feature_names` order: every
bot-indicator feature at `1.0` (bot/crawler/suspicious/missing/outdated UA
markers, proxy headers, header anomaly, datacenter IP, missing geo,
maximal country risk, timezone mismatch, unknown device, device/browser
mismatch, bad IP reputation, datacenter ASN) and every human-indicator
feature absent, i.e. `0` (UA length, header count, accept headers,
referer, DNT, device one-hots, market shares, behavioural and TLS/TCP
placeholders). -/
def botIndicatorVector : List ℚ :=
  [0, 1, 1, 1, 1, 1,
   0, 0, 0, 0, 0, 1, 1,
   1, 1, 1, 0, 1,
   0, 0, 0, 1,
   0, 0, 1,
   0, 0, 0, 0, 0,
   1, 1, 0, 0, 0]

end RuleBased

/-! ## Visitor data model

Shared by the headless detector (`src/ml/headless_detector.py`) and the
feature extractor (`src/ml/feature_extractor.py`).  Every dict key that
may be absent is an `Option` field; `none` means the key is absent.  The
Python truthiness test `if not d` on a sub-dict is the `truthy` predicate
(a dict is truthy iff it has at least one key). -/

/-- `advancedFingerprint.canvas`. -/
structure CanvasFP where
  hash : Option String
  geometry : Option String
  text : Option String

/-- Truthiness of the canvas dict. -/
def CanvasFP.truthy (c : CanvasFP) : Bool :=
  c.hash.isSome || c.geometry.isSome || c.text.isSome

/-- `advancedFingerprint.webgl`. -/
structure WebglFP where
  vendor : Option String
  renderer : Option String
  extensions : Option (List String)
  parameters : Option (List (String × String))

/-- Truthiness of the webgl dict. -/
def WebglFP.truthy (w : WebglFP) : Bool :=
  w.vendor.isSome || w.renderer.isSome || w.extensions.isSome ||
    w.parameters.isSome

/-- `advancedFingerprint.audio`. -/
structure AudioFP where
  contextHash : Option String
  compressorHash : Option String
  oscillatorHash : Option String
  sampleRate : Option ℚ
  maxChannelCount : Option ℤ

/-- Truthiness of the audio dict. -/
def AudioFP.truthy (a : AudioFP) : Bool :=
  a.contextHash.isSome || a.compressorHash.isSome ||
    a.oscillatorHash.isSome || a.sampleRate.isSome || a.maxChannelCount.isSome

/-- `advancedFingerprint.screen`. -/
structure ScreenFP where
  resolution : Option String
  pixelRatio : Option ℚ
  orientation : Option String

/-- Truthiness of the screen dict. -/
def ScreenFP.truthy (s : ScreenFP) : Bool :=
  s.resolution.isSome || s.pixelRatio.isSome || s.orientation.isSome

/-- `advancedFingerprint.device`.  `connection` is an opaque
connection-info object: only its presence is ever read. -/
structure DeviceFP where
  hardwareConcurrency : Option ℤ
  deviceMemory : Option ℚ
  maxTouchPoints : Option ℤ
  connection : Option Unit

/-- Truthiness of the fingerprint device dict. -/
def DeviceFP.truthy (d : DeviceFP) : Bool :=
  d.hardwareConcurrency.isSome || d.deviceMemory.isSome ||
    d.maxTouchPoints.isSome || d.connection.isSome

/-- `advancedFingerprint.environment`. -/
structure EnvFP where
  plugins : Option (List String)
  languages : Option (List String)
  timezone : Option String
  timezoneOffset : Option ℤ
  platform : Option String
  cookieEnabled : Option Bool
  doNotTrack : Option String

/-- Truthiness of the environment dict. -/
def EnvFP.truthy (e : EnvFP) : Bool :=
  e.plugins.isSome || e.languages.isSome || e.timezone.isSome ||
    e.timezoneOffset.isSome || e.platform.isSome ||
    e.cookieEnabled.isSome || e.doNotTrack.isSome

/-- `advancedFingerprint.performance`. -/
structure PerfFP where
  renderingTime : Option ℚ
  canvasRenderTime : Option ℚ
  webglRenderTime : Option ℚ
  audioProcessingTime : Option ℚ

/-- Truthiness of the performance dict. -/
def PerfFP.truthy (p : PerfFP) : Bool :=
  p.renderingTime.isSome || p.canvasRenderTime.isSome ||
    p.webglRenderTime.isSome || p.audioProcessingTime.isSome

/-- The `advancedFingerprint` dict. -/
structure AdvancedFingerprint where
  canvas : Option CanvasFP
  webgl : Option WebglFP
  audio : Option AudioFP
  screen : Option ScreenFP
  device : Option DeviceFP
  environment : Option EnvFP
  performance : Option PerfFP

/-- Truthiness of the `advancedFingerprint` dict. -/
def AdvancedFingerprint.truthy (a : AdvancedFingerprint) : Bool :=
  a.canvas.isSome || a.webgl.isSome || a.audio.isSome || a.screen.isSome ||
    a.device.isSome || a.environment.isSome || a.performance.isSome

/-- `visitor_data.geo`. -/
structure GeoData where
  country : Option String
  city : Option String

/-- Truthiness of the geo dict. -/
def GeoData.truthy (g : GeoData) : Bool :=
  g.country.isSome || g.city.isSome

/-- `visitor_data.browser`. -/
structure BrowserData where
  name : Option String
  version : Option String

/-- Truthiness of the browser dict. -/
def BrowserData.truthy (b : BrowserData) : Bool :=
  b.name.isSome || b.version.isSome

/-- `visitor_data.os`. -/
structure OsData where
  name : Option String

/-- Truthiness of the os dict. -/
def OsData.truthy (o : OsData) : Bool :=
  o.name.isSome

/-- `visitor_data.device` (the top-level device dict). -/
structure DeviceTop where
  type : Option String

/-- The visitor signal as read by the detector and the extractor.
String fields read with default `''` and only ever tested for truthiness
or content are plain `String` (`""` standing for absent). -/
structure VisitorData where
  ip : String
  userAgent : String
  headers : List (String × String)
  referer : String
  geo : Option GeoData
  device : Option DeviceTop
  browser : Option BrowserData
  os : Option OsData
  advancedFingerprint : Option AdvancedFingerprint

/-- Truthiness of an optional sub-dict of the visitor payload. -/
def optTruthy {α : Type} (truthy : α → Bool) (o : Option α) : Bool :=
  (o.map truthy).getD false

/-! ## String and number parsing helpers for the embedded regexes -/

/-- Value of a list of decimal digits. -/
def digitsToNat (l : List Char) : ℕ :=
  l.foldl (fun acc c => acc * 10 + (c.toNat - '0'.toNat)) 0

/-- Python `int(s)` for a plain decimal literal: optional surrounding
whitespace, optional sign, at least one digit; `none` when `int` would
raise `ValueError`. -/
def parsePyInt (s : String) : Option ℤ :=
  let chars := s.trim.data
  let signAndDigits : ℤ × List Char :=
    match chars with
    | '-' :: rest => (-1, rest)
    | '+' :: rest => (1, rest)
    | _ => (1, chars)
  if !signAndDigits.2.isEmpty && signAndDigits.2.all Char.isDigit then
    some (signAndDigits.1 * (digitsToNat signAndDigits.2 : ℤ))
  else none

/-- Parse `(\d+)\.(\d+)\.(\d+)\.(\d+)` at the head of `l`, returning the
matched text (greedy digit runs; equivalent to the regex because a digit
run followed by a literal dot admits no backtracking). -/
def parseFourVersionGroups (l : List Char) : Option String :=
  let s1 := l.span Char.isDigit
  if s1.1.isEmpty then none else
  match s1.2 with
  | '.' :: r1 =>
      let s2 := r1.span Char.isDigit
      if s2.1.isEmpty then none else
      match s2.2 with
      | '.' :: r2 =>
          let s3 := r2.span Char.isDigit
          if s3.1.isEmpty then none else
          match s3.2 with
          | '.' :: r3 =>
              let s4 := r3.span Char.isDigit
              if s4.1.isEmpty then none else
              some (String.mk
                (s1.1 ++ '.' :: s2.1 ++ '.' :: s3.1 ++ '.' :: s4.1))
          | _ => none
      | _ => none
  | _ => none

/-- `re.search(r'Chrome/(\d+)\.(\d+)\.(\d+)\.(\d+)', ua)`: leftmost
position where `Chrome/` is followed by four dot-separated digit groups;
returns the dotted full version (the four groups joined, as the source
formats them). -/
def searchChromeVersion : List Char → Option String
  | [] => none
  | c :: rest =>
      match (if ("Chrome/".data).isPrefixOf (c :: rest) then
          parseFourVersionGroups ((c :: rest).drop 7) else none) with
      | some v => some v
      | none => searchChromeVersion rest

/-- A regex word character (`\w`): letter, digit or underscore. -/
def isWordChar (c : Char) : Bool :=
  c.isAlphanum || c = '_'

/-- One `\d{1,3}\.` group at the head of `l`: a maximal digit run of
length 1–3 followed by `'.'`; returns the remainder after the dot.
(Backtracking inside `\d{1,3}` cannot help because any shorter match
leaves a digit where the dot is required.) -/
def matchOctetDot (l : List Char) : Option (List Char) :=
  let s := l.span Char.isDigit
  if 1 ≤ s.1.length && s.1.length ≤ 3 then
    match s.2 with
    | '.' :: rest => some rest
    | _ => none
  else none

/-- `\d{1,3}\.\d{1,3}\.\d{1,3}\.\d{1,3}\b` matched at the head of `l`. -/
def matchIpAt (l : List Char) : Bool :=
  match matchOctetDot l with
  | none => false
  | some l1 =>
      match matchOctetDot l1 with
      | none => false
      | some l2 =>
          match matchOctetDot l2 with
          | none => false
          | some l3 =>
              let s := l3.span Char.isDigit
              1 ≤ s.1.length && s.1.length ≤ 3 &&
                (match s.2 with
                 | [] => true            -- end of string is a boundary
                 | c :: _ => !isWordChar c)

/-- `re.search` for the IP pattern: try every position whose left context
is a word boundary (start of string or a non-word character). -/
def searchIpAux (prev : Option Char) : List Char → Bool
  | [] => false
  | c :: rest =>
      ((match prev with
        | none => true
        | some p => !isWordChar p) && matchIpAt (c :: rest)) ||
      searchIpAux (some c) rest

/-- `re.search(r'\b\d{1,3}\.\d{1,3}\.\d{1,3}\.\d{1,3}\b', ua)`. -/
def searchIpPattern (ua : String) : Bool :=
  searchIpAux none ua.data

/-- `java(?!script)`: an occurrence of `java` not immediately followed by
`script`. -/
def containsJavaNotScript : List Char → Bool
  | [] => false
  | c :: rest =>
      ("java".data.isPrefixOf (c :: rest) &&
        !("javascript".data.isPrefixOf (c :: rest))) ||
      containsJavaNotScript rest

/-- A Python regex whitespace character (`\s`). -/
def pySpace (c : Char) : Bool :=
  c = ' ' || c = '\t' || c = '\n' || c = '\r' || c = '\x0b' || c = '\x0c'

/-- `re.search(r'compatible;\s*$', ua)`: after stripping trailing
whitespace the string ends with `compatible;`. -/
def endsWithCompatible (ua : String) : Bool :=
  ("compatible;".data.reverse).isPrefixOf (ua.data.reverse.dropWhile pySpace)

/-- `re.match(r'^\d+\.0\.0\.0$', version)` (the `$` also admits one
trailing newline). -/
def matchesVersionAnomaly (version : String) : Bool :=
  let s := version.data.span Char.isDigit
  !s.1.isEmpty && (s.2 = ".0.0.0".data || s.2 = (".0.0.0" ++ "\n").data)

/-! ## Headless/automation sub-detector — `src/ml/headless_detector.py` -/

namespace Headless

/-- The `HeadlessFramework` enum. -/
inductive HeadlessFramework where
  | puppeteer
  | selenium
  | playwright
  | phantomjs
  | chrome_headless
  | unknown
deriving DecidableEq

/-- The per-group analysis dict (`is_suspicious`, `detections`, `score`);
the `features` sub-dict is only copied into the result's informational
`features` field and read by no claim, so it is not modelled. -/
structure GroupResult where
  is_suspicious : Bool
  detections : List String
  score : ℕ

/-- A group result before any indicator fires. -/
def emptyGroup : GroupResult :=
  { is_suspicious := false, detections := [], score := 0 }

/-- The user-agent analysis dict, which additionally carries the
`framework` key. -/
structure UAResult where
  is_suspicious : Bool
  detections : List String
  score : ℕ
  framework : HeadlessFramework

/-- `headless_keywords` of `_analyze_user_agent` (lines 118–121). -/
def headless_keywords : List String :=
  ["HeadlessChrome", "PhantomJS", "SlimerJS", "HtmlUnit",
   "Headless", "headless", "automation", "webdriver"]

/-- `automation_versions` of `_analyze_user_agent` (line 144). -/
def automation_chrome_versions : List String :=
  ["88.0.4324.150", "91.0.4472.124", "92.0.4515.107"]

/-- The per-keyword step of the `_analyze_user_agent` loop
(lines 123–134): on a hit, mark suspicious, append the detection, add 30,
and — only when no framework is identified yet — classify as Chrome
headless (for `HeadlessChrome`/`Headless` hits) or PhantomJS. -/
def uaKeywordStep (user_agent : String) (r : UAResult) (keyword : String) :
    UAResult :=
  if strContains user_agent keyword then
    let r := { r with is_suspicious := true,
                      detections := r.detections ++
                        ["Headless keyword detected: " ++ keyword],
                      score := r.score + 30 }
    if r.framework = .unknown then
      if strContains user_agent "HeadlessChrome" ||
          strContains user_agent "Headless" then
        { r with framework := .chrome_headless }
      else if strContains user_agent "PhantomJS" then
        { r with framework := .phantomjs }
      else r
    else r
  else r

/-- `HeadlessBrowserDetector._analyze_user_agent` (lines 99–176). -/
def analyze_user_agent (user_agent : String) : UAResult :=
  if user_agent = "" then
    { is_suspicious := true, detections := ["Empty user agent"],
      score := 20, framework := .unknown }
  else
    let r : UAResult := { is_suspicious := false, detections := [],
                          score := 0, framework := .unknown }
    let r := headless_keywords.foldl (uaKeywordStep user_agent) r
    let r := if strContains user_agent "Chrome" && r.framework = .unknown then
        match searchChromeVersion user_agent.data with
        | some full_version =>
            if automation_chrome_versions.contains full_version then
              { r with is_suspicious := true,
                       detections := r.detections ++
                         ["Automation Chrome version: " ++ full_version],
                       score := r.score + 25, framework := .puppeteer }
            else r
        | none => r
      else r
    let r := if !(["Windows", "Macintosh", "Linux", "X11"].any
        (fun platform => strContains user_agent platform)) then
      { r with is_suspicious := true,
               detections := r.detections ++
                 ["Missing platform information in user agent"],
               score := r.score + 15 }
      else r
    let r := if countChar user_agent '(' ≠ countChar user_agent ')' then
      { r with is_suspicious := true,
               detections := r.detections ++
                 ["Malformed user agent structure"],
               score := r.score + 10 }
      else r
    let r := if user_agent.length < 50 then
      { r with is_suspicious := true,
               detections := r.detections ++ ["Unusually short user agent"],
               score := r.score + 10 }
      else if user_agent.length > 500 then
      { r with is_suspicious := true,
               detections := r.detections ++ ["Unusually long user agent"],
               score := r.score + 5 }
      else r
    r

/-- `expected_headers` of `_analyze_headers` (line 193). -/
def expected_headers : List String :=
  ["accept", "accept-language", "accept-encoding"]

/-- `automation_headers` of `_analyze_headers` (lines 214–217). -/
def automation_headers : List String :=
  ["x-chrome-connected", "x-devtools-emulate-network-conditions-client-id",
   "sec-ch-ua-mobile", "sec-fetch-dest", "sec-fetch-mode", "sec-fetch-site"]

/-- `HeadlessBrowserDetector._analyze_headers` (lines 178–244). -/
def analyze_headers (headers : List (String × String)) : GroupResult :=
  let headers_lower := headers.map (fun p => (p.1.toLower, p.2))
  let r := emptyGroup
  let missing_headers :=
    expected_headers.filter (fun h => !dictMem headers_lower h)
  let r := if !missing_headers.isEmpty then
    { r with is_suspicious := true,
             detections := r.detections ++
               ["Missing headers: " ++
                 String.intercalate ", " missing_headers],
             score := r.score + missing_headers.length * 10 }
    else r
  let r := match dictGet headers_lower "accept-language" with
    | some accept_lang =>
        if accept_lang = "en-US" || accept_lang = "*" then
          { r with is_suspicious := true,
                   detections := r.detections ++
                     ["Suspicious accept-language header"],
                   score := r.score + 10 }
        else r
    | none => r
  let automation_count :=
    (automation_headers.filter (fun h => dictMem headers_lower h)).length
  let r := if automation_count > 8 then
      { r with is_suspicious := true,
               detections := r.detections ++
                 ["Too many automation-related headers"],
               score := r.score + 15 }
    else if automation_count = 0 &&
        strContains ((dictGet headers_lower "user-agent").getD "").toLower
          "chrome" then
      { r with is_suspicious := true,
               detections := r.detections ++ ["Missing modern Chrome headers"],
               score := r.score + 10 }
    else r
  let r := match dictGet headers_lower "connection" with
    | some connection_value =>
        let c := connection_value.toLower
        if c ≠ "keep-alive" && c ≠ "close" then
          { r with is_suspicious := true,
                   detections := r.detections ++
                     ["Unusual connection header: " ++ c],
                   score := r.score + 5 }
        else r
    | none => r
  r

/-- `headless_canvas_hashes` of `_analyze_advanced_fingerprint`
(lines 264–267). -/
def headless_canvas_hashes : List String :=
  ["da39a3ee5e6b4b0d3255bfef95601890afd80709",
   "e3b0c44298fc1c149afbf4c8996fb92427ae41e4"]

/-- `suspicious_vendors` of `_analyze_advanced_fingerprint`
(lines 285–287). -/
def suspicious_webgl_vendors : List String :=
  ["Brian Paul", "Mesa Project", "VMware, Inc.", "SwiftShader"]

/-- `HeadlessBrowserDetector._analyze_advanced_fingerprint`
(lines 246–370); the screen-resolution check only writes the unmodelled
`features` sub-dict. -/
def analyze_advanced_fingerprint (fingerprint : AdvancedFingerprint) :
    GroupResult :=
  let r := emptyGroup
  let r := match fingerprint.canvas with
    | some canvas =>
        let r := match canvas.hash with
          | some h =>
              if headless_canvas_hashes.contains h then
                { r with is_suspicious := true,
                         detections := r.detections ++
                           ["Known headless canvas signature"],
                         score := r.score + 25 }
              else r
          | none => r
        match canvas.text with
        | some t =>
            if t = canvas.geometry.getD "" then
              { r with is_suspicious := true,
                       detections := r.detections ++
                         ["Canvas text rendering anomaly"],
                       score := r.score + 15 }
            else r
        | none => r
    | none => r
  let r := match fingerprint.webgl with
    | some webgl =>
        let r := match webgl.vendor with
          | some vendorVal =>
              suspicious_webgl_vendors.foldl (fun r vendor =>
                if strContains vendorVal vendor then
                  { r with is_suspicious := true,
                           detections := r.detections ++
                             ["Suspicious WebGL vendor: " ++ vendor],
                           score := r.score + 20 }
                else r) r
          | none => r
        match webgl.renderer with
        | some rendererVal =>
            if strContains rendererVal "SwiftShader" ||
                strContains rendererVal "Mesa OffScreen" then
              { r with is_suspicious := true,
                       detections := r.detections ++
                         ["Software-rendered WebGL detected"],
                       score := r.score + 20 }
            else r
        | none => r
    | none => r
  let r := match fingerprint.screen with
    | some screen =>
        match screen.pixelRatio with
        | some pr =>
            if pr = 1 then
              { r with is_suspicious := true,
                       detections := r.detections ++
                         ["Default pixel ratio detected"],
                       score := r.score + 5 }
            else r
        | none => r
    | none => r
  let r := match fingerprint.device with
    | some device =>
        let r := match device.hardwareConcurrency with
          | some concurrency =>
              if concurrency > 16 || concurrency = 1 then
                { r with is_suspicious := true,
                         detections := r.detections ++
                           ["Unusual hardware concurrency: " ++
                             toString concurrency],
                         score := r.score + 10 }
              else r
          | none => r
        if device.deviceMemory.isNone then
          { r with is_suspicious := true,
                   detections := r.detections ++
                     ["Device memory API not available"],
                   score := r.score + 5 }
        else r
    | none => r
  let r := match fingerprint.environment with
    | some env =>
        let r := match env.plugins with
          | some plugins =>
              if plugins.length = 0 then
                { r with is_suspicious := true,
                         detections := r.detections ++
                           ["No browser plugins detected"],
                         score := r.score + 15 }
              else if plugins.length < 3 then
                { r with is_suspicious := true,
                         detections := r.detections ++
                           ["Unusually few plugins"],
                         score := r.score + 10 }
              else r
          | none => r
        let r := match env.languages with
          | some languages =>
              if languages.length = 1 && languages.getD 0 "" = "en-US" then
                { r with is_suspicious := true,
                         detections := r.detections ++
                           ["Only default language detected"],
                         score := r.score + 10 }
              else r
          | none => r
        match env.timezone with
        | some tz =>
            if tz = "UTC" then
              { r with is_suspicious := true,
                       detections := r.detections ++
                         ["UTC timezone detected"],
                       score := r.score + 10 }
            else r
        | none => r
    | none => r
  r

/-- `HeadlessBrowserDetector._analyze_browser_environment`
(lines 372–405); the Linux-Chrome check only writes the unmodelled
`features` sub-dict. -/
def analyze_browser_environment (visitor : VisitorData) : GroupResult :=
  let r := emptyGroup
  if optTruthy BrowserData.truthy visitor.browser &&
      optTruthy OsData.truthy visitor.os then
    match visitor.browser.bind BrowserData.version with
    | some version =>
        if matchesVersionAnomaly version then
          { r with is_suspicious := true,
                   detections := r.detections ++
                     ["Suspicious browser version pattern"],
                   score := r.score + 15 }
        else r
    | none => r
  else r

/-- `HeadlessBrowserDetector._is_hosting_ip` (lines 434–449): anchored
matches of the three private-range patterns. -/
def is_hosting_ip (ip : String) : Bool :=
  ("172.16.".data).isPrefixOf ip.data ||
  ("10.".data).isPrefixOf ip.data ||
  ("192.168.".data).isPrefixOf ip.data

/-- `HeadlessBrowserDetector._analyze_behavioral_patterns`
(lines 407–432); the missing-referer check only writes the unmodelled
`features` sub-dict. -/
def analyze_behavioral_patterns (visitor : VisitorData) : GroupResult :=
  let r := emptyGroup
  if is_hosting_ip visitor.ip then
    { r with is_suspicious := true,
             detections := r.detections ++
               ["Request from hosting provider IP"],
             score := r.score + 20 }
  else r

/-- The `HeadlessDetectionResult` dataclass (minus the informational
`features` dict). -/
structure DetectionResult where
  is_headless : Bool
  confidence : ℚ
  framework : HeadlessFramework
  detections : List String
  risk_score : ℕ

/-- `HeadlessBrowserDetector.detect` (lines 39–97): accumulate the five
signal groups in order (UA, headers, advanced fingerprint when present,
browser environment, behavioural); only the UA analysis can set the
framework; `confidence = min(risk_score/100, 1.0)`;
`is_headless ↔ risk_score ≥ 60`. -/
def detect (visitor : VisitorData) : DetectionResult :=
  let detections : List String := []
  let risk_score : ℕ := 0
  let framework := HeadlessFramework.unknown
  let ua_result := analyze_user_agent visitor.userAgent
  let detections := if ua_result.is_suspicious then
    detections ++ ua_result.detections else detections
  let risk_score := if ua_result.is_suspicious then
    risk_score + ua_result.score else risk_score
  let framework := if ua_result.is_suspicious &&
      ua_result.framework ≠ .unknown then ua_result.framework else framework
  let headers_result := analyze_headers visitor.headers
  let detections := if headers_result.is_suspicious then
    detections ++ headers_result.detections else detections
  let risk_score := if headers_result.is_suspicious then
    risk_score + headers_result.score else risk_score
  let fp_result := visitor.advancedFingerprint.map analyze_advanced_fingerprint
  let detections := match fp_result with
    | some fp => if fp.is_suspicious then detections ++ fp.detections
        else detections
    | none => detections
  let risk_score := match fp_result with
    | some fp => if fp.is_suspicious then risk_score + fp.score
        else risk_score
    | none => risk_score
  let env_result := analyze_browser_environment visitor
  let detections := if env_result.is_suspicious then
    detections ++ env_result.detections else detections
  let risk_score := if env_result.is_suspicious then
    risk_score + env_result.score else risk_score
  let behavior_result := analyze_behavioral_patterns visitor
  let detections := if behavior_result.is_suspicious then
    detections ++ behavior_result.detections else detections
  let risk_score := if behavior_result.is_suspicious then
    risk_score + behavior_result.score else risk_score
  { is_headless := risk_score ≥ 60,
    confidence := min ((risk_score : ℚ) / 100) 1,
    framework := framework,
    detections := detections,
    risk_score := risk_score }

/-- The feature dict returned by `get_headless_features` (lines 506–522). -/
structure HeadlessFeatures where
  headless_confidence : ℚ
  headless_risk_score : ℚ
  is_automation_framework : ℚ
  headless_detection_count : ℚ
  is_puppeteer : ℚ
  is_selenium : ℚ
  is_phantomjs : ℚ
  is_playwright : ℚ

/-- `get_headless_features` (lines 506–522). -/
def get_headless_features (visitor : VisitorData) : HeadlessFeatures :=
  let result := detect visitor
  { headless_confidence := result.confidence,
    headless_risk_score := (result.risk_score : ℚ) / 100,
    is_automation_framework :=
      if result.framework ≠ .unknown then 1 else 0,
    headless_detection_count := (result.detections.length : ℚ),
    is_puppeteer := if result.framework = .puppeteer then 1 else 0,
    is_selenium := if result.framework = .selenium then 1 else 0,
    is_phantomjs := if result.framework = .phantomjs then 1 else 0,
    is_playwright := if result.framework = .playwright then 1 else 0 }

end Headless

/-! ## Feature extractor — `src/ml/feature_extractor.py` -/

namespace FeatureExtractor

/-- `campaign_targeting`, as read by the feature extractor: the
`countries` and `devices` keys, defaulting to `[]`.  `none` stands for an
absent or falsy (empty) targeting dict. -/
structure Targeting where
  countries : List String
  devices : List String

/-- The `high_risk` country list of `_get_country_risk_score`. -/
def high_risk_countries : List String :=
  ["CN", "RU", "IN", "BR", "ID", "NG", "PK"]

/-- The `medium_risk` country list of `_get_country_risk_score`. -/
def medium_risk_countries : List String :=
  ["TR", "VN", "PH", "BD", "EG", "IR"]

/-- The base risk assigned per country before targeting adjustment:
`0.8` for high-risk, `0.6` for medium-risk, `0.2` otherwise. -/
def base_country_risk (c : String) : ℚ :=
  if high_risk_countries.contains c then 4 / 5
  else if medium_risk_countries.contains c then 3 / 5
  else 1 / 5

/-- `FeatureExtractor._get_country_risk_score` (lines 362–385): `0.5` for
a missing (falsy) country; otherwise the base risk, reduced by 30 % when
`allowed_by_user` holds and the base risk exceeds `0.5`, and floored at
`0.7` (`max(base_risk, 0.7)`) when `allowed_by_user` is false. -/
def get_country_risk_score (country : Option String)
    (allowed_by_user : Bool) : ℚ :=
  if !strTruthy country then 1 / 2
  else
    let base_risk := base_country_risk (country.getD "")
    if allowed_by_user && decide (base_risk > 1 / 2) then
      base_risk * (7 / 10)
    else if !allowed_by_user then
      max base_risk (7 / 10)
    else
      base_risk

/-- The `country_allowed_by_user` computation of `_extract_geo_features`
(lines 216–221): defaults to `True`; only when the targeting dict is
truthy, the country truthy, and the `countries` list non-empty is it the
membership test. -/
def country_allowed_by_user (campaign_targeting : Option Targeting)
    (country : Option String) : Bool :=
  match campaign_targeting with
  | some targeting =>
      if strTruthy country then
        if targeting.countries.isEmpty then true
        else targeting.countries.contains (country.getD "")
      else true
  | none => true

/-- The country-risk feature exactly as `_extract_geo_features` computes
it (line 226). -/
def country_risk_feature (campaign_targeting : Option Targeting)
    (country : Option String) : ℚ :=
  get_country_risk_score country
    (country_allowed_by_user campaign_targeting country)

/-- The amended C4 claim, stated in its own words: a missing country gives
`0.5`; a country excluded by a non-empty target list is floored at `0.7`;
otherwise — including when no targeting list is given — the base risk is
reduced by 30 % exactly when it exceeds `0.5`, and returned unadjusted
otherwise. -/
def country_risk_amended_spec (campaign_targeting : Option Targeting)
    (country : Option String) : ℚ :=
  if !strTruthy country then 1 / 2
  else
    let c := country.getD ""
    let excluded : Bool := match campaign_targeting with
      | some targeting =>
          !targeting.countries.isEmpty && !targeting.countries.contains c
      | none => false
    if excluded then max (base_country_risk c) (7 / 10)
    else if base_country_risk c > 1 / 2 then
      base_country_risk c * (7 / 10)
    else
      base_country_risk c

/-- The wall-clock and float-library inputs of one extraction call:
`datetime.utcnow()` (behavioural features), `datetime.now()` (the
helpers' request-time check), and `np.log1p` (a transcendental float
operation, abstracted as an oracle). -/
structure ExtractEnv where
  utcHour : ℕ
  utcWeekday : ℕ
  localHour : ℕ
  log1p : ℚ → ℚ

/-- `_extract_ua_features` bot keywords (line 182). -/
def bot_ua_keywords : List String := ["bot", "crawl", "spider"]

/-- `_extract_ua_features` known-crawler keywords (line 183). -/
def crawler_ua_keywords : List String := ["googlebot", "bingbot", "yandex"]

/-- `FeatureExtractor._is_outdated_browser` (lines 297–313): compares the
integer major version against per-browser thresholds; any parse failure
is swallowed by the bare `except`. -/
def is_outdated_browser (browser : Option BrowserData) : Bool :=
  let name := browser.bind BrowserData.name
  let versionStr := browser.bind BrowserData.version
  if !strTruthy name || !strTruthy versionStr then false
  else
    match parsePyInt (((versionStr.getD "").splitOn ".").headD "") with
    | some version =>
        if (name.getD "").toLower = "chrome" && version < 90 then true
        else if (name.getD "").toLower = "firefox" && version < 85 then true
        else if (name.getD "").toLower = "safari" && version < 14 then true
        else false
    | none => false

/-- `FeatureExtractor._has_suspicious_ua_pattern` (lines 315–328): the
four suspicious regexes, searched over the already lower-cased UA. -/
def has_suspicious_ua_pattern (ua : String) : Bool :=
  (["python", "curl", "wget", "go-http"].any (fun p => strContains ua p) ||
      containsJavaNotScript ua.data) ||
  (["headless", "phantom", "selenium"].any (fun p => strContains ua p)) ||
  searchIpPattern ua ||
  endsWithCompatible ua

/-- `_extract_ua_features` (lines 176–189). -/
def extract_ua_features (data : VisitorData) : List ℚ :=
  let ua := data.userAgent.toLower
  [(ua.length : ℚ),
   b2q (bot_ua_keywords.any (fun bot => strContains ua bot)),
   b2q (crawler_ua_keywords.any (fun crawler => strContains ua crawler)),
   b2q (!strTruthy (data.browser.bind BrowserData.name)),
   b2q (is_outdated_browser data.browser),
   b2q (has_suspicious_ua_pattern ua)]

/-- `proxy_headers` of `_extract_header_features` (line 195). -/
def proxy_header_names : List String :=
  ["x-forwarded-for", "x-real-ip", "via", "forwarded"]

/-- `FeatureExtractor._calculate_header_anomaly_score` (lines 330–354). -/
def calculate_header_anomaly_score
    (headers : List (String × String)) : ℚ :=
  let score : ℚ := 0
  let score := ["accept", "accept-language", "accept-encoding"].foldl
    (fun score header =>
      if !dictMem headers header then score + 1 / 5 else score) score
  let score := if dictGet headers "accept" = some "*/*" then
    score + 1 / 10 else score
  let score := if dictGet headers "accept-language" = some "*" then
    score + 1 / 5 else score
  let header_count := headers.length
  let score := if header_count < 5 then score + 1 / 5
    else if header_count > 20 then score + 1 / 10 else score
  min score 1

/-- `_extract_header_features` (lines 191–208). -/
def extract_header_features (data : VisitorData) : List ℚ :=
  let headers := data.headers
  let has_proxy := b2q (proxy_header_names.any (fun h => dictMem headers h))
  [(headers.length : ℚ),
   b2q (dictMem headers "accept-language"),
   b2q (dictMem headers "accept-encoding"),
   b2q (data.referer ≠ ""),
   b2q (dictGet headers "dnt" = some "1"),
   has_proxy,
   calculate_header_anomaly_score headers]

/-- `datacenter_prefixes` of `_is_datacenter_ip` (line 359). -/
def datacenter_ip_prefixes : List String :=
  ["34.", "35.", "52.", "54.", "13.", "18."]

/-- `FeatureExtractor._is_datacenter_ip` (lines 356–360). -/
def is_datacenter_ip (ip : String) : Bool :=
  datacenter_ip_prefixes.any (fun p => p.data.isPrefixOf ip.data)

/-- `major_cities` of `_estimate_city_population` (lines 390–398), in
insertion order. -/
def major_cities : List (String × ℚ) :=
  [("new york", 8000000), ("los angeles", 4000000), ("chicago", 2700000),
   ("houston", 2300000), ("london", 9000000), ("paris", 2200000),
   ("tokyo", 14000000)]

/-- `FeatureExtractor._estimate_city_population` (lines 387–405): first
major city whose name occurs in the lower-cased input, else 50 000. -/
def estimate_city_population (city : String) : ℚ :=
  match major_cities.find? (fun p => strContains city.toLower p.1) with
  | some p => p.2
  | none => 50000

/-- `FeatureExtractor._check_timezone_mismatch` (lines 407–410): always
`False`. -/
def check_timezone_mismatch : Bool := false

/-- `_extract_geo_features` (lines 210–231). -/
def extract_geo_features (env : ExtractEnv) (data : VisitorData)
    (campaign_targeting : Option Targeting) : List ℚ :=
  [b2q (is_datacenter_ip data.ip),
   b2q (!optTruthy GeoData.truthy data.geo),
   country_risk_feature campaign_targeting (data.geo.bind GeoData.country),
   env.log1p (estimate_city_population
     ((data.geo.bind GeoData.city).getD "")),
   b2q check_timezone_mismatch]

/-- `market_share` of `_get_browser_market_share` (lines 417–423). -/
def browser_market_share_table : List (String × ℚ) :=
  [("chrome", 65 / 100), ("safari", 19 / 100), ("edge", 4 / 100),
   ("firefox", 3 / 100), ("opera", 2 / 100)]

/-- `FeatureExtractor._get_browser_market_share` (lines 412–425). -/
def get_browser_market_share (browser_name : Option String) : ℚ :=
  if !strTruthy browser_name then 0
  else
    (dictGet browser_market_share_table
      (browser_name.getD "").toLower).getD (1 / 100)

/-- `market_share` of `_get_os_market_share` (lines 432–438). -/
def os_market_share_table : List (String × ℚ) :=
  [("windows", 70 / 100), ("mac os", 17 / 100), ("linux", 2 / 100),
   ("android", 41 / 100), ("ios", 17 / 100)]

/-- `FeatureExtractor._get_os_market_share` (lines 427–440). -/
def get_os_market_share (os_name : Option String) : ℚ :=
  if !strTruthy os_name then 0
  else
    (dictGet os_market_share_table (os_name.getD "").toLower).getD (1 / 100)

/-- `FeatureExtractor._check_device_browser_mismatch` (lines 442–456). -/
def check_device_browser_mismatch (device : Option DeviceTop)
    (browser : Option BrowserData) (os : Option OsData) : Bool :=
  let device_type := ((device.bind DeviceTop.type).getD "").toLower
  let browser_name := ((browser.bind BrowserData.name).getD "").toLower
  let os_name := ((os.bind OsData.name).getD "").toLower
  if os_name = "ios" &&
      !(browser_name = "safari" || browser_name = "chrome") then true
  else if device_type = "mobile" &&
      (os_name = "windows" || os_name = "mac os" || os_name = "linux") then
    true
  else false

/-- `_extract_device_features` (lines 233–263). -/
def extract_device_features (data : VisitorData)
    (campaign_targeting : Option Targeting) : List ℚ :=
  let device_type := ((data.device.bind DeviceTop.type).getD "desktop").toLower
  let device_allowed_by_user := match campaign_targeting with
    | some targeting =>
        if targeting.devices.isEmpty then true
        else targeting.devices.contains device_type
    | none => true
  let device_suspicion_modifier : ℚ :=
    if !device_allowed_by_user then 1 / 2 else 1
  [b2q (device_type = "mobile"),
   b2q (device_type = "tablet"),
   b2q (device_type = "desktop"),
   b2q (device_type ≠ "mobile" && device_type ≠ "tablet" &&
     device_type ≠ "desktop"),
   get_browser_market_share (data.browser.bind BrowserData.name),
   get_os_market_share (data.os.bind OsData.name),
   b2q (check_device_browser_mismatch data.device data.browser data.os) *
     device_suspicion_modifier]

/-- `_extract_behavioral_features` (lines 265–280): normalized
`utcnow()` hour and weekday plus three placeholder zeros. -/
def extract_behavioral_features (env : ExtractEnv) : List ℚ :=
  [(env.utcHour : ℚ) / 24,
   (env.utcWeekday : ℚ) / 7,
   0, 0, 0]

/-- `FeatureExtractor._get_asn_type_score` (lines 458–463). -/
def get_asn_type_score (ip : String) : ℚ :=
  if is_datacenter_ip ip then 8 / 10 else 1 / 5

/-- `_extract_network_features` (lines 282–295). -/
def extract_network_features (data : VisitorData) : List ℚ :=
  [1 / 2,
   get_asn_type_score data.ip,
   1 / 2, 1 / 2, 1 / 2]

/-- `_extract_headless_features` (lines 465–481): the eight values of
`get_headless_features` in source order (the `except` branch returning
eight zeros is unreachable in the total embedding). -/
def extract_headless_features (data : VisitorData) : List ℚ :=
  let hf := Headless.get_headless_features data
  [hf.headless_confidence, hf.headless_risk_score,
   hf.is_automation_framework, hf.headless_detection_count,
   hf.is_puppeteer, hf.is_selenium, hf.is_phantomjs, hf.is_playwright]

/-- `FeatureExtractor._check_canvas_consistency` (lines 711–728). -/
def check_canvas_consistency (canvas : Option CanvasFP) : ℚ :=
  if !optTruthy CanvasFP.truthy canvas then 0
  else
    let hash_val := (canvas.bind CanvasFP.hash).getD ""
    let geometry := (canvas.bind CanvasFP.geometry).getD ""
    let text := (canvas.bind CanvasFP.text).getD ""
    if hash_val = "no-canvas" || hash_val = "" then 0
    else if hash_val.length < 10 || geometry = text then 1 / 5
    else 1

/-- `FeatureExtractor._calculate_canvas_entropy` (lines 730–743). -/
def calculate_canvas_entropy (canvas : Option CanvasFP) : ℚ :=
  if !optTruthy CanvasFP.truthy canvas then 0
  else
    let hash_val := (canvas.bind CanvasFP.hash).getD ""
    if hash_val = "" || hash_val = "no-canvas" then 0
    else
      let unique_chars := hash_val.data.dedup.length
      let max_entropy := min hash_val.length 16
      if max_entropy > 0 then (unique_chars : ℚ) / (max_entropy : ℚ) else 0

/-- `FeatureExtractor._detect_canvas_noise_pattern` (lines 745–761). -/
def detect_canvas_noise_pattern (canvas : Option CanvasFP) : ℚ :=
  if !optTruthy CanvasFP.truthy canvas then 0
  else
    let hash_val := (canvas.bind CanvasFP.hash).getD ""
    let geometry := (canvas.bind CanvasFP.geometry).getD ""
    if hash_val ≠ "" && hash_val.data.dedup.length < 4 then 1
    else if geometry ≠ "" && geometry = (canvas.bind CanvasFP.text).getD ""
      then 1
    else 0

/-- `FeatureExtractor._analyze_canvas_text_rendering` (lines 763–776). -/
def analyze_canvas_text_rendering (canvas : Option CanvasFP) : ℚ :=
  if !optTruthy CanvasFP.truthy canvas then 0
  else
    let text_data := (canvas.bind CanvasFP.text).getD ""
    if text_data = "" then 0
    else if text_data.length < 10 then 1 / 5
    else 1

/-- `suspicious_vendors` of `_check_webgl_vendor_suspicious`
(lines 784–786). -/
def suspicious_vendor_markers : List String :=
  ["brian paul", "mesa project", "vmware", "swiftshader"]

/-- `FeatureExtractor._check_webgl_vendor_suspicious` (lines 778–792). -/
def check_webgl_vendor_suspicious (webgl : Option WebglFP) : ℚ :=
  if !optTruthy WebglFP.truthy webgl then 0
  else
    let vendor := ((webgl.bind WebglFP.vendor).getD "").toLower
    if suspicious_vendor_markers.any (fun sus => strContains vendor sus)
      then 1
    else 0

/-- `suspicious_renderers` of `_check_webgl_renderer_suspicious`
(lines 800–802). -/
def suspicious_renderer_markers : List String :=
  ["swiftshader", "mesa offscreen", "llvmpipe", "software"]

/-- `FeatureExtractor._check_webgl_renderer_suspicious` (lines 794–808). -/
def check_webgl_renderer_suspicious (webgl : Option WebglFP) : ℚ :=
  if !optTruthy WebglFP.truthy webgl then 0
  else
    let renderer := ((webgl.bind WebglFP.renderer).getD "").toLower
    if suspicious_renderer_markers.any (fun sus => strContains renderer sus)
      then 1
    else 0

/-- `FeatureExtractor._calculate_webgl_entropy` (lines 810–823). -/
def calculate_webgl_entropy (webgl : Option WebglFP) : ℚ :=
  if !optTruthy WebglFP.truthy webgl then 0
  else
    let params := (webgl.bind WebglFP.parameters).getD []
    if params.isEmpty then 0
    else
      let param_count := params.length
      let unique_values := (params.map Prod.snd).dedup.length
      if param_count > 0 then
        (unique_values : ℚ) / ((max param_count 1 : ℕ) : ℚ)
      else 0

/-- `FeatureExtractor._check_webgl_consistency` (lines 825–841). -/
def check_webgl_consistency (webgl : Option WebglFP) : ℚ :=
  if !optTruthy WebglFP.truthy webgl then 0
  else
    let vendor := (webgl.bind WebglFP.vendor).getD ""
    let renderer := (webgl.bind WebglFP.renderer).getD ""
    if strContains vendor.toLower "nvidia" &&
        !strContains renderer.toLower "nvidia" then 1 / 5
    else if strContains vendor.toLower "amd" &&
        !strContains renderer.toLower "amd" then 1 / 5
    else if strContains vendor.toLower "intel" &&
        !strContains renderer.toLower "intel" then 1 / 5
    else 1

/-- `FeatureExtractor._calculate_audio_entropy` (lines 843–858). -/
def calculate_audio_entropy (audio : Option AudioFP) : ℚ :=
  if !optTruthy AudioFP.truthy audio then 0
  else
    let all_hashes := (audio.bind AudioFP.contextHash).getD "" ++
      (audio.bind AudioFP.compressorHash).getD "" ++
      (audio.bind AudioFP.oscillatorHash).getD ""
    if all_hashes = "" then 0
    else min ((all_hashes.data.dedup.length : ℚ) / 16) 1

/-- `FeatureExtractor._check_audio_consistency` (lines 860–874). -/
def check_audio_consistency (audio : Option AudioFP) : ℚ :=
  if !optTruthy AudioFP.truthy audio then 0
  else
    let sample_rate := (audio.bind AudioFP.sampleRate).getD 0
    let max_channels := (audio.bind AudioFP.maxChannelCount).getD 0
    if sample_rate < 8000 || sample_rate > 192000 then 1 / 5
    else if max_channels < 1 || max_channels > 32 then 1 / 5
    else 1

/-- `FeatureExtractor._analyze_compressor_dynamics` (lines 876–889). -/
def analyze_compressor_dynamics (audio : Option AudioFP) : ℚ :=
  if !optTruthy AudioFP.truthy audio then 0
  else
    let compressor_hash := (audio.bind AudioFP.compressorHash).getD ""
    if compressor_hash = "" then 0
    else if compressor_hash.length < 8 then 1 / 5
    else 1

/-- `FeatureExtractor._analyze_oscillator_signature` (lines 891–904). -/
def analyze_oscillator_signature (audio : Option AudioFP) : ℚ :=
  if !optTruthy AudioFP.truthy audio then 0
  else
    let oscillator_hash := (audio.bind AudioFP.oscillatorHash).getD ""
    if oscillator_hash = "" then 0
    else if oscillator_hash.length < 8 then 1 / 5
    else 1

/-- `common_resolutions` of `_check_common_resolution` (lines 912–915). -/
def common_resolutions : List String :=
  ["1920x1080", "1366x768", "1440x900", "1536x864",
   "1280x720", "1600x900", "2560x1440", "3840x2160"]

/-- `FeatureExtractor._check_common_resolution` (lines 906–917). -/
def check_common_resolution (screen : Option ScreenFP) : ℚ :=
  if !optTruthy ScreenFP.truthy screen then 1 / 2
  else if common_resolutions.contains
      ((screen.bind ScreenFP.resolution).getD "") then 1
  else 3 / 10

/-- `standard_ratios` of `_check_standard_pixel_ratio` (line 925). -/
def standard_pixel_ratios : List ℚ :=
  [1, 5 / 4, 3 / 2, 2, 9 / 4, 3]

/-- `FeatureExtractor._check_standard_pixel_ratio` (lines 919–927). -/
def check_standard_pixel_ratio (screen : Option ScreenFP) : ℚ :=
  if !optTruthy ScreenFP.truthy screen then 1 / 2
  else
    let pixel_ratio := (screen.bind ScreenFP.pixelRatio).getD 1
    if standard_pixel_ratios.any (fun r => decide (pixel_ratio = r)) then 1
    else 3 / 10

/-- `FeatureExtractor._check_normal_orientation` (lines 929–935). -/
def check_normal_orientation (screen : Option ScreenFP) : ℚ :=
  if !optTruthy ScreenFP.truthy screen then 1 / 2
  else if ["landscape-primary", "portrait-primary"].contains
      ((screen.bind ScreenFP.orientation).getD "unknown") then 1
  else 3 / 10

/-- `FeatureExtractor._check_normal_hardware_concurrency`
(lines 937–944). -/
def check_normal_hardware_concurrency (device : Option DeviceFP) : ℚ :=
  if !optTruthy DeviceFP.truthy device then 1 / 2
  else
    let concurrency := (device.bind DeviceFP.hardwareConcurrency).getD 1
    if 1 ≤ concurrency && concurrency ≤ 32 then 1 else 3 / 10

/-- `FeatureExtractor._check_normal_plugin_count` (lines 947–959)
(`0 ≤ plugin_count` always holds for a length). -/
def check_normal_plugin_count (env : Option EnvFP) : ℚ :=
  if !optTruthy EnvFP.truthy env then 1 / 2
  else
    let plugin_count := ((env.bind EnvFP.plugins).getD []).length
    if plugin_count ≤ 20 then 1 else 3 / 10

/-- `FeatureExtractor._check_normal_language_count` (lines 961–973). -/
def check_normal_language_count (env : Option EnvFP) : ℚ :=
  if !optTruthy EnvFP.truthy env then 1 / 2
  else
    let lang_count := ((env.bind EnvFP.languages).getD []).length
    if 1 ≤ lang_count && lang_count ≤ 10 then 1 else 3 / 10

/-- `FeatureExtractionHelpers.check_timezone_consistency`
(helpers lines 13–26). -/
def check_timezone_consistency (env : Option EnvFP) : ℚ :=
  if !optTruthy EnvFP.truthy env then 1 / 2
  else
    let timezone := (env.bind EnvFP.timezone).getD "UTC"
    let timezone_offset := (env.bind EnvFP.timezoneOffset).getD 0
    if timezone = "UTC" && timezone_offset ≠ 0 then 1 / 5 else 1

/-- `FeatureExtractionHelpers.check_platform_consistency`
(helpers lines 28–43). -/
def check_platform_consistency (env : Option EnvFP) : ℚ :=
  if !optTruthy EnvFP.truthy env then 1 / 2
  else
    let platform := ((env.bind EnvFP.platform).getD "").toLower
    let languages := (env.bind EnvFP.languages).getD []
    if strContains platform "win" &&
        languages.any (fun lang => strContains lang "zh") then 1
    else if strContains platform "mac" &&
        languages.any (fun lang => strContains lang "en") then 1
    else 4 / 5

/-- `FeatureExtractionHelpers.check_normal_rendering_time`
(helpers lines 45–59). -/
def check_normal_rendering_time (perf : Option PerfFP) : ℚ :=
  if !optTruthy PerfFP.truthy perf then 1 / 2
  else
    let rendering_time := (perf.bind PerfFP.renderingTime).getD 0
    if 10 ≤ rendering_time && rendering_time ≤ 500 then 1
    else if rendering_time < 1 then 1 / 10
    else 1 / 2

/-- `FeatureExtractionHelpers.analyze_canvas_render_speed`
(helpers lines 61–75). -/
def analyze_canvas_render_speed (perf : Option PerfFP) : ℚ :=
  if !optTruthy PerfFP.truthy perf then 1 / 2
  else
    let canvas_time := (perf.bind PerfFP.canvasRenderTime).getD 0
    if 5 ≤ canvas_time && canvas_time ≤ 200 then 1
    else if canvas_time < 1 then 1 / 5
    else 3 / 5

/-- `FeatureExtractionHelpers.analyze_webgl_render_speed`
(helpers lines 77–91). -/
def analyze_webgl_render_speed (perf : Option PerfFP) : ℚ :=
  if !optTruthy PerfFP.truthy perf then 1 / 2
  else
    let webgl_time := (perf.bind PerfFP.webglRenderTime).getD 0
    if 2 ≤ webgl_time && webgl_time ≤ 100 then 1
    else if webgl_time < 1 then 1 / 5
    else 3 / 5

/-- `FeatureExtractionHelpers.analyze_audio_processing_speed`
(helpers lines 93–107). -/
def analyze_audio_processing_speed (perf : Option PerfFP) : ℚ :=
  if !optTruthy PerfFP.truthy perf then 1 / 2
  else
    let audio_time := (perf.bind PerfFP.audioProcessingTime).getD 0
    if 1 ≤ audio_time && audio_time ≤ 50 then 1
    else if audio_time < 1 / 2 then 1 / 5
    else 3 / 5

/-- `FeatureExtractionHelpers.check_execution_timing_consistency`
(helpers lines 109–127). -/
def check_execution_timing_consistency (perf : Option PerfFP) : ℚ :=
  if !optTruthy PerfFP.truthy perf then 1 / 2
  else
    let canvas_time := (perf.bind PerfFP.canvasRenderTime).getD 0
    let webgl_time := (perf.bind PerfFP.webglRenderTime).getD 0
    if canvas_time > 0 && webgl_time > 0 then
      let ratio := canvas_time / webgl_time
      if 1 / 10 ≤ ratio && ratio ≤ 10 then 1 else 3 / 10
    else 7 / 10

/-- `FeatureExtractionHelpers.analyze_header_order`
(helpers lines 129–145). -/
def analyze_header_order (headers : List (String × String)) : ℚ :=
  if headers.isEmpty then 1 / 2
  else
    let header_keys := headers.map Prod.fst
    let expected_early_headers := ["host", "user-agent", "accept"]
    let found_early := ((header_keys.take 3).filter
      (fun h => expected_early_headers.contains h.toLower)).length
    if header_keys.length ≥ 3 then (found_early : ℚ) / 3 else 1 / 2

/-- Python `s.islower()` restricted to ASCII: at least one letter and no
upper-case letter. -/
def pyIsLower (s : String) : Bool :=
  s.data.any Char.isAlpha && s.data.all (fun c => !c.isUpper)

/-- Python `s.capitalize()`: first character upper-cased, the rest
lower-cased. -/
def pyCapitalize (s : String) : String :=
  match s.data with
  | [] => ""
  | c :: rest => String.mk (c.toUpper :: rest.map Char.toLower)

/-- One header key counts as properly cased when it is all-lower or
equals its `-`-joined capitalization (helpers lines 157–161). -/
def properCased (header : String) : Bool :=
  pyIsLower header ||
    String.intercalate "-" ((header.splitOn "-").map pyCapitalize) = header

/-- `FeatureExtractionHelpers.check_header_casing`
(helpers lines 147–163). -/
def check_header_casing (headers : List (String × String)) : ℚ :=
  if headers.isEmpty then 1 / 2
  else
    let total_headers := headers.length
    let proper_casing_count :=
      (headers.filter (fun p => properCased p.1)).length
    if total_headers > 0 then (proper_casing_count : ℚ) / total_headers
    else 1 / 2

/-- `FeatureExtractionHelpers.check_header_completeness`
(helpers lines 165–177). -/
def check_header_completeness (headers : List (String × String)) : ℚ :=
  if headers.isEmpty then 0
  else
    let required_headers := ["user-agent", "accept", "host"]
    let common_headers := ["accept-language", "accept-encoding", "connection"]
    let required_score :=
      ((required_headers.filter (fun h => dictMem headers h)).length : ℚ) /
        required_headers.length
    let common_score :=
      ((common_headers.filter (fun h => dictMem headers h)).length : ℚ) /
        common_headers.length
    required_score * (7 / 10) + common_score * (3 / 10)

/-- `FeatureExtractionHelpers.check_realistic_accept_header`
(helpers lines 179–199). -/
def check_realistic_accept_header (headers : List (String × String)) : ℚ :=
  if headers.isEmpty then 1 / 2
  else
    let accept := (dictGet headers "accept").getD ""
    if accept = "" then 0
    else if accept = "*/*" then 1 / 5
    else if strContains accept "text/html" &&
        strContains accept "application/xhtml+xml" then 1
    else if accept.length < 10 then 3 / 10
    else 7 / 10

/-- `FeatureExtractionHelpers.check_normal_encoding_preferences`
(helpers lines 201–215). -/
def check_normal_encoding_preferences
    (headers : List (String × String)) : ℚ :=
  if headers.isEmpty then 1 / 2
  else
    let accept_encoding := (dictGet headers "accept-encoding").getD ""
    if accept_encoding = "" then 3 / 10
    else
      let common_encodings := ["gzip", "deflate", "br"]
      ((common_encodings.filter
        (fun enc => strContains accept_encoding enc)).length : ℚ) /
        common_encodings.length

/-- `FeatureExtractionHelpers.check_ip_geo_consistency`
(helpers lines 217–225). -/
def check_ip_geo_consistency (ip : String) (geo : Option GeoData) : ℚ :=
  if ip = "" || !optTruthy GeoData.truthy geo then 1 / 2 else 4 / 5

/-- `FeatureExtractionHelpers.check_residential_asn`
(helpers lines 227–235). -/
def check_residential_asn (ip : String) : ℚ :=
  if ip = "" then 1 / 2 else 7 / 10

/-- `proxy_headers` of `detect_proxy_indicators`
(helpers lines 243–246). -/
def vpn_proxy_header_names : List String :=
  ["x-forwarded-for", "x-real-ip", "x-proxy-connection",
   "via", "forwarded", "x-forwarded-host"]

/-- `FeatureExtractionHelpers.detect_proxy_indicators`
(helpers lines 237–249). -/
def detect_proxy_indicators (headers : List (String × String)) : ℚ :=
  if headers.isEmpty then 0
  else
    min (((vpn_proxy_header_names.filter
      (fun h => dictMem headers h)).length : ℚ) / 2) 1

/-- `FeatureExtractionHelpers.check_tor_exit_node`
(helpers lines 251–258): `0.0` on both branches. -/
def check_tor_exit_node (ip : String) : ℚ :=
  if ip = "" then 0 else 0

/-- `FeatureExtractionHelpers.detect_vpn_indicators`
(helpers lines 260–267); the headers argument is unused by the source. -/
def detect_vpn_indicators (ip : String)
    (_headers : List (String × String)) : ℚ :=
  if ip = "" then 0 else 1 / 10

/-- `FeatureExtractionHelpers.analyze_request_time_human`
(helpers lines 269–279): local wall-clock hour between 6 and 23. -/
def analyze_request_time_human (env : ExtractEnv) : ℚ :=
  if 6 ≤ env.localHour && env.localHour ≤ 23 then 1 else 3 / 10

/-- `FeatureExtractionHelpers.check_timezone_header_match`
(helpers lines 281–288). -/
def check_timezone_header_match (headers : List (String × String))
    (geo : Option GeoData) : ℚ :=
  if headers.isEmpty || !optTruthy GeoData.truthy geo then 1 / 2 else 4 / 5

/-- `FeatureExtractionHelpers.check_fingerprint_stability`
(helpers lines 290–297). -/
def check_fingerprint_stability
    (adv_fp : Option AdvancedFingerprint) : ℚ :=
  if !optTruthy AdvancedFingerprint.truthy adv_fp then 1 / 2 else 4 / 5

/-- `FeatureExtractionHelpers.calculate_fingerprint_uniqueness`
(helpers lines 299–320): the number of truthy fingerprint components,
normalized by 6. -/
def calculate_fingerprint_uniqueness
    (adv_fp : Option AdvancedFingerprint) : ℚ :=
  if !optTruthy AdvancedFingerprint.truthy adv_fp then 0
  else
    let components :=
      ([optTruthy CanvasFP.truthy (adv_fp.bind AdvancedFingerprint.canvas),
        optTruthy WebglFP.truthy (adv_fp.bind AdvancedFingerprint.webgl),
        optTruthy AudioFP.truthy (adv_fp.bind AdvancedFingerprint.audio),
        optTruthy ScreenFP.truthy (adv_fp.bind AdvancedFingerprint.screen),
        optTruthy DeviceFP.truthy (adv_fp.bind AdvancedFingerprint.device),
        optTruthy EnvFP.truthy
          (adv_fp.bind AdvancedFingerprint.environment)].filter id).length
    min ((components : ℚ) / 6) 1

/-- `FeatureExtractionHelpers.detect_spoofing_indicators`
(helpers lines 322–345). -/
def detect_spoofing_indicators
    (adv_fp : Option AdvancedFingerprint) : ℚ :=
  if !optTruthy AdvancedFingerprint.truthy adv_fp then 0
  else
    let canvas := adv_fp.bind AdvancedFingerprint.canvas
    let webgl := adv_fp.bind AdvancedFingerprint.webgl
    let env := adv_fp.bind AdvancedFingerprint.environment
    let spoofing_score : ℚ := 0
    let spoofing_score :=
      if canvas.bind CanvasFP.hash = canvas.bind CanvasFP.geometry then
        spoofing_score + 3 / 10
      else spoofing_score
    let spoofing_score :=
      if webgl.bind WebglFP.vendor = some "Google Inc." &&
          strContains ((webgl.bind WebglFP.renderer).getD "")
            "SwiftShader" then
        spoofing_score + 3 / 10
      else spoofing_score
    let spoofing_score :=
      if ((env.bind EnvFP.plugins).getD []).length = 0 &&
          (env.bind EnvFP.cookieEnabled).getD true then
        spoofing_score + 1 / 5
      else spoofing_score
    min spoofing_score 1

/-- `FeatureExtractionHelpers.detect_inconsistent_properties`
(helpers lines 347–370). -/
def detect_inconsistent_properties
    (adv_fp : Option AdvancedFingerprint) : ℚ :=
  if !optTruthy AdvancedFingerprint.truthy adv_fp then 0
  else
    let screen := adv_fp.bind AdvancedFingerprint.screen
    let device := adv_fp.bind AdvancedFingerprint.device
    let env := adv_fp.bind AdvancedFingerprint.environment
    let inconsistency_score : ℚ := 0
    let inconsistency_score :=
      if screen.bind ScreenFP.resolution = some "1920x1080" &&
          decide ((device.bind DeviceFP.maxTouchPoints).getD 0 > 0) then
        inconsistency_score + 1 / 5
      else inconsistency_score
    let platform := ((env.bind EnvFP.platform).getD "").toLower
    let languages := (env.bind EnvFP.languages).getD []
    let inconsistency_score :=
      if strContains platform "win" &&
          !(languages.any (fun lang => strContains lang "en")) then
        inconsistency_score + 1 / 10
      else inconsistency_score
    min inconsistency_score 1

/-- `FeatureExtractionHelpers.detect_property_overrides`
(helpers lines 372–379). -/
def detect_property_overrides
    (adv_fp : Option AdvancedFingerprint) : ℚ :=
  if !optTruthy AdvancedFingerprint.truthy adv_fp then 0 else 1 / 10

/-- `FeatureExtractionHelpers.analyze_performance_timing`
(helpers lines 381–399). -/
def analyze_performance_timing
    (adv_fp : Option AdvancedFingerprint) : ℚ :=
  if !optTruthy AdvancedFingerprint.truthy adv_fp then 1 / 2
  else
    let perf := adv_fp.bind AdvancedFingerprint.performance
    if !optTruthy PerfFP.truthy perf then 1 / 2
    else
      let rendering_time := (perf.bind PerfFP.renderingTime).getD 0
      if rendering_time < 1 then 1
      else if 10 ≤ rendering_time && rendering_time ≤ 100 then 0
      else 1 / 2

/-- `FeatureExtractionHelpers.check_referrer_chain_logical`
(helpers lines 401–413). -/
def check_referrer_chain_logical (data : VisitorData) : ℚ :=
  if data.referer = "" then 1 / 2
  else if ("http".data).isPrefixOf data.referer.data then 1
  else 3 / 10

/-- `FeatureExtractor._detect_webdriver_properties` (lines 976–988). -/
def detect_webdriver_properties (data : VisitorData) : ℚ :=
  if strContains data.userAgent.toLower "webdriver" then 1
  else if data.headers.any
      (fun p => ("webdriver".data).isPrefixOf p.1.data) then 1
  else 0

/-- `FeatureExtractor._detect_automation_globals` (lines 990–994):
placeholder `0.0`. -/
def detect_automation_globals : ℚ := 0

/-- `FeatureExtractor._detect_debug_properties` (lines 996–1000):
placeholder `0.0`. -/
def detect_debug_properties : ℚ := 0

/-- `_extract_advanced_fingerprint_features` (lines 483–554): the 33
canvas / WebGL / audio / screen-hardware / environment / performance
features. -/
def extract_advanced_fingerprint_features (data : VisitorData) : List ℚ :=
  let adv_fp := data.advancedFingerprint
  let canvas := adv_fp.bind AdvancedFingerprint.canvas
  let webgl := adv_fp.bind AdvancedFingerprint.webgl
  let audio := adv_fp.bind AdvancedFingerprint.audio
  let screen := adv_fp.bind AdvancedFingerprint.screen
  let device := adv_fp.bind AdvancedFingerprint.device
  let env := adv_fp.bind AdvancedFingerprint.environment
  let perf := adv_fp.bind AdvancedFingerprint.performance
  [b2q (optTruthy CanvasFP.truthy canvas),
   check_canvas_consistency canvas,
   calculate_canvas_entropy canvas,
   detect_canvas_noise_pattern canvas,
   analyze_canvas_text_rendering canvas] ++
  [b2q (optTruthy WebglFP.truthy webgl),
   check_webgl_vendor_suspicious webgl,
   check_webgl_renderer_suspicious webgl,
   (((webgl.bind WebglFP.extensions).getD []).length : ℚ) / 50,
   calculate_webgl_entropy webgl,
   check_webgl_consistency webgl] ++
  [b2q (optTruthy AudioFP.truthy audio),
   calculate_audio_entropy audio,
   check_audio_consistency audio,
   analyze_compressor_dynamics audio,
   analyze_oscillator_signature audio] ++
  [check_common_resolution screen,
   check_standard_pixel_ratio screen,
   check_normal_orientation screen,
   check_normal_hardware_concurrency device,
   b2q ((device.bind DeviceFP.deviceMemory).getD 0 ≠ 0),
   b2q (device.bind DeviceFP.connection).isSome] ++
  [check_normal_plugin_count env,
   check_normal_language_count env,
   check_timezone_consistency env,
   check_platform_consistency env,
   b2q ((env.bind EnvFP.cookieEnabled).getD false),
   b2q (strTruthy (env.bind EnvFP.doNotTrack))] ++
  [check_normal_rendering_time perf,
   analyze_canvas_render_speed perf,
   analyze_webgl_render_speed perf,
   analyze_audio_processing_speed perf,
   check_execution_timing_consistency perf]

/-- `_extract_behavioral_pattern_features` (lines 556–610): the 26
request / HTTP / IP-network / TLS-TCP / time features. -/
def extract_behavioral_pattern_features (env : ExtractEnv)
    (data : VisitorData) : List ℚ :=
  let headers := data.headers
  [1 / 2, 1 / 2, 1 / 2, 1 / 2, 1 / 2] ++
  [analyze_header_order headers,
   check_header_casing headers,
   check_header_completeness headers,
   check_realistic_accept_header headers,
   check_normal_encoding_preferences headers] ++
  [check_ip_geo_consistency data.ip data.geo,
   check_residential_asn data.ip,
   detect_proxy_indicators headers,
   check_tor_exit_node data.ip,
   detect_vpn_indicators data.ip headers,
   b2q (is_datacenter_ip data.ip)] ++
  [1 / 2, 1 / 2, 1 / 2, 1 / 2, 1 / 2] ++
  [analyze_request_time_human env,
   check_timezone_header_match headers data.geo,
   1 / 2, 1 / 2, 1 / 2]

/-- `_extract_evasion_detection_features` (lines 612–663): the 25
spoofing / interaction / JS / resource / automation features. -/
def extract_evasion_detection_features (data : VisitorData) : List ℚ :=
  let adv_fp := data.advancedFingerprint
  [check_fingerprint_stability adv_fp,
   calculate_fingerprint_uniqueness adv_fp,
   detect_spoofing_indicators adv_fp,
   detect_inconsistent_properties adv_fp,
   detect_property_overrides adv_fp] ++
  [1 / 2, 1 / 2, 1 / 2, 1 / 2, 1 / 2] ++
  [1 / 2, 1 / 2, 1 / 2, 1 / 2, 1 / 2] ++
  [1 / 2, 1 / 2, 1 / 2, 1 / 2, 1 / 2] ++
  [detect_webdriver_properties data,
   detect_automation_globals,
   detect_debug_properties,
   1 / 2,
   analyze_performance_timing adv_fp]

/-- `_extract_ml_analysis_features` (lines 665–708): the 23 content /
session / evasion / ML features (all but one placeholders). -/
def extract_ml_analysis_features (data : VisitorData) : List ℚ :=
  [1 / 2, 1 / 2, 1 / 2, 1 / 2, 1 / 2] ++
  [1 / 2, 1 / 2,
   check_referrer_chain_logical data,
   1 / 2, 1 / 2] ++
  [1 / 2, 1 / 2, 1 / 2, 1 / 2, 1 / 2] ++
  [1 / 2, 1 / 2, 1 / 2, 1 / 2, 1 / 2,
   3 / 10, 7 / 10, 2 / 5]

/-- `FeatureExtractor.extract_features` (lines 157–174): the eleven
feature groups concatenated in source order. -/
def extract_features (env : ExtractEnv) (data : VisitorData)
    (campaign_targeting : Option Targeting) : List ℚ :=
  extract_ua_features data ++
  extract_header_features data ++
  extract_geo_features env data campaign_targeting ++
  extract_device_features data campaign_targeting ++
  extract_behavioral_features env ++
  extract_network_features data ++
  extract_headless_features data ++
  extract_advanced_fingerprint_features data ++
  extract_behavioral_pattern_features env data ++
  extract_evasion_detection_features data ++
  extract_ml_analysis_features data

/-- `FeatureExtractor._initialize_feature_names` (lines 17–155): the 150
declared feature names in source order. -/
def feature_names : List String :=
  ["ua_length", "ua_bot_keyword", "ua_crawler_keyword",
   "ua_missing_browser", "ua_outdated_browser", "ua_suspicious_pattern",
   "header_count", "has_accept_language", "has_accept_encoding",
   "has_referer", "has_dnt", "has_proxy_headers", "header_anomaly_score",
   "is_datacenter_ip", "geo_missing", "country_risk_score",
   "city_population_log", "timezone_mismatch",
   "is_mobile", "is_tablet", "is_desktop", "is_unknown_device",
   "browser_market_share", "os_market_share", "device_browser_mismatch",
   "request_hour", "request_day_of_week", "session_duration",
   "page_views_per_minute", "click_pattern_score",
   "ip_reputation_score", "asn_type_score", "connection_type_score",
   "tls_fingerprint_common", "tcp_fingerprint_match",
   "headless_confidence", "headless_risk_score", "is_automation_framework",
   "headless_detection_count", "is_puppeteer", "is_selenium",
   "is_phantomjs", "is_playwright",
   "canvas_available", "canvas_consistent", "canvas_entropy",
   "canvas_noise_pattern", "canvas_text_rendering",
   "webgl_available", "webgl_vendor_suspicious", "webgl_renderer_suspicious",
   "webgl_extension_count", "webgl_parameters_entropy", "webgl_consistent",
   "audio_available", "audio_entropy", "audio_consistent",
   "audio_compressor_dynamics", "audio_oscillator_signature",
   "screen_resolution_common", "pixel_ratio_standard",
   "screen_orientation_normal", "hardware_concurrency_normal",
   "device_memory_available", "connection_info_available",
   "plugin_count_normal", "language_count_normal", "timezone_consistent",
   "platform_consistent", "cookies_enabled", "dnt_header_present",
   "rendering_time_normal", "canvas_render_speed", "webgl_render_speed",
   "audio_processing_speed", "execution_timing_consistent",
   "request_timing_human", "request_frequency_normal",
   "session_depth_normal", "page_sequence_logical",
   "interaction_pattern_human",
   "header_order_normal", "header_casing_standard", "header_completeness",
   "accept_header_realistic", "encoding_preferences_normal",
   "ip_geolocation_consistent", "asn_residential", "proxy_indicators",
   "tor_exit_node", "vpn_indicators", "datacenter_hosting",
   "tls_ja3_known", "tcp_window_size_normal", "tcp_options_standard",
   "tls_cipher_order_normal", "tls_extension_order_normal",
   "request_time_human", "timezone_header_match", "clock_skew_normal",
   "response_timing_analysis", "think_time_realistic",
   "fingerprint_stability", "fingerprint_uniqueness", "spoofing_indicators",
   "inconsistent_properties", "override_detection",
   "mouse_movement_entropy", "click_timing_human", "keyboard_timing_human",
   "scroll_behavior_natural", "focus_change_patterns",
   "js_execution_timing", "dom_manipulation_speed", "event_handling_normal",
   "memory_usage_pattern", "cpu_usage_normal",
   "image_loading_behavior", "css_loading_timing", "font_loading_normal",
   "third_party_requests", "cdn_usage_pattern",
   "webdriver_properties", "automation_globals", "debug_properties",
   "extension_interference", "performance_timing_analysis",
   "content_interaction_depth", "reading_time_realistic",
   "scroll_depth_normal", "form_filling_speed", "link_following_pattern",
   "session_continuity", "cross_page_consistency", "referrer_chain_logical",
   "bounce_rate_normal", "engagement_metrics",
   "rotated_fingerprints", "proxy_rotation_detected", "ua_rotation_detected",
   "timing_attack_resistance", "entropy_manipulation",
   "prediction_confidence", "ensemble_agreement", "outlier_score",
   "clustering_distance", "anomaly_detection_score",
   "browser_extension_fingerprint", "font_fingerprint_entropy",
   "css_feature_detection"]

end FeatureExtractor

/-! # Theorems -/

/-- **C5**: for every IP (i.e. for every outcome of the backend call for
that IP), `is_blacklisted` returns `false` on timeout, connection failure,
non-200 status, malformed input (status 400), body-parse failure and any
other exception; it returns `true` exactly when a well-formed 200 response
carries `isBlacklisted = true`. -/
theorem is_blacklisted_fails_open (outcome : Blacklist.HttpOutcome) :
    Blacklist.is_blacklisted outcome = true ↔
      outcome = .response 200 (.ok (some true)) := by
  cases outcome with
  | response statusCode fieldResult =>
      by_cases h200 : statusCode = 200
      · subst h200
        rcases fieldResult with e | fieldValue
        · simp [Blacklist.is_blacklisted]
        · rcases fieldValue with _ | b
          · simp [Blacklist.is_blacklisted]
          · cases b <;> simp [Blacklist.is_blacklisted]
      · simp [Blacklist.is_blacklisted, h200]
  | timeoutExc => simp [Blacklist.is_blacklisted]
  | connectExc => simp [Blacklist.is_blacklisted]
  | otherExc m => simp [Blacklist.is_blacklisted]

/-- Witness for C5 at a concrete outcome: a 200 response reporting
`isBlacklisted = true` yields `true`. -/
theorem is_blacklisted_fails_open_witness :
    Blacklist.is_blacklisted (.response 200 (.ok (some true))) = true :=
  (is_blacklisted_fails_open (.response 200 (.ok (some true)))).mpr rfl

/-- **C3 counterexample**: a candidate whose F1 exceeds the active value by
*exactly* 2 % relative improvement (`0.51` against `0.5`, and
`0.51 = 0.5 * 1.02`) is **not** promoted, refuting the claim that exactly
2 % yields `promotion = true`. -/
theorem should_deploy_exact_two_percent_is_false :
    (51 / 100 : ℚ) = (1 / 2) * (102 / 100) ∧
    Training.should_deploy_model
      (some { f1_score := some (1 / 2), roc_auc := some 0 })
      { f1_score := some (51 / 100), roc_auc := some 0 } = false := by
  constructor
  · norm_num
  · norm_num [Training.should_deploy_model]

/-- **C3 (amended)**: the promotion decision returns `true` iff no active
model metrics exist, or the candidate's F1 or ROC-AUC **strictly** exceeds
`1.02` times the active version's recorded value (strictly more than 2 %
relative improvement; missing metric keys read as `0`).  In particular a
relative improvement of exactly 1.5 % or exactly 2 % yields `false`, and
2.5 % yields `true`. -/
theorem should_deploy_model_characterization :
    (∀ (current_metrics : Option Training.MetricsDict)
       (new_metrics : Training.MetricsDict),
      Training.should_deploy_model current_metrics new_metrics = true ↔
        current_metrics = none ∨
        ∃ current, current_metrics = some current ∧
          (new_metrics.f1_score.getD 0 > current.f1_score.getD 0 * (102 / 100) ∨
           new_metrics.roc_auc.getD 0 > current.roc_auc.getD 0 * (102 / 100))) ∧
    Training.should_deploy_model
      (some { f1_score := some 1, roc_auc := some 0 })
      { f1_score := some (203 / 200), roc_auc := some 0 } = false ∧
    Training.should_deploy_model
      (some { f1_score := some 1, roc_auc := some 0 })
      { f1_score := some (41 / 40), roc_auc := some 0 } = true := by
  refine ⟨?_, by norm_num [Training.should_deploy_model],
    by norm_num [Training.should_deploy_model]⟩
  intro current_metrics new_metrics
  match current_metrics with
  | none => simp [Training.should_deploy_model]
  | some current =>
      simp [Training.should_deploy_model]

/-- **C9**: loading a version whose model file is absent from the store
fails with the "Model version … not found" error and carries back the
manager state exactly as it was: active model, version, feature names,
load time and metadata are all unchanged. -/
theorem load_model_not_found_preserves_state
    {Model Meta : Type} (store : ModelManager.FileStore Model Meta)
    (s : ModelManager.ManagerState Model Meta) (version : String) (now : Nat)
    (habsent : store.modelFile version = none) :
    ModelManager.load_model store s version now =
      .error
        (.fileNotFound ("Model version " ++ version ++ " not found"), s) := by
  unfold ModelManager.load_model
  rw [habsent]

/-- Witness for C9: an empty store contains no version `"7"`, and loading
it fails with the not-found error while returning the initial (empty)
manager state untouched. -/
theorem load_model_not_found_preserves_state_witness :
    (({ modelFile := fun _ => none, metadataFile := fun _ => none } :
        ModelManager.FileStore Unit Unit).modelFile "7" = none) ∧
    ModelManager.load_model
      ({ modelFile := fun _ => none, metadataFile := fun _ => none } :
        ModelManager.FileStore Unit Unit)
      { current_model := none, current_version := none, loaded_at := none,
        feature_names := none, model_metadata := none } "7" 0 =
      .error (.fileNotFound "Model version 7 not found",
        { current_model := none, current_version := none, loaded_at := none,
          feature_names := none, model_metadata := none }) :=
  ⟨rfl,
    load_model_not_found_preserves_state
      { modelFile := fun _ => none, metadataFile := fun _ => none }
      { current_model := none, current_version := none, loaded_at := none,
        feature_names := none, model_metadata := none } "7" 0 rfl⟩

/-- **C1**: whenever the blacklist collaborator reports the visitor's IP as
blacklisted, `predict` returns `isBot = true`, `confidence = 1.0`,
`reason = "IP found in blacklist"` and model version `"blacklist_v1"` (the
blacklist-shortcut tag), without invoking the feature extractor, the
classifier, or the cache write. -/
theorem predict_blacklisted_shortcut (c : Prediction.Collaborators)
    (visitor : Prediction.VisitorData)
    (targeting : Option Prediction.CampaignTargeting)
    (h : c.is_blacklisted = true) :
    (Prediction.predict c visitor targeting).1.isBot = true ∧
    (Prediction.predict c visitor targeting).1.confidence = 1 ∧
    (Prediction.predict c visitor targeting).1.reason =
      some "IP found in blacklist" ∧
    (Prediction.predict c visitor targeting).1.modelVersion = "blacklist_v1" ∧
    (Prediction.predict c visitor targeting).2.extractorInvoked = false ∧
    (Prediction.predict c visitor targeting).2.classifierInvoked = false ∧
    (Prediction.predict c visitor targeting).2.cacheWriteInvoked = false := by
  simp [Prediction.predict, Prediction.predictBody, h]

/-- Witness for C1 at a concrete environment and visitor. -/
theorem predict_blacklisted_shortcut_witness :
    ({ is_blacklisted := true, extract_features := .ok [],
       feature_names := [], model_predict := fun _ => .ok (false, 0),
       current_version := none, cache_setex := .ok (),
       blacklist_add := .ok true, format2f := fun _ => "" } :
      Prediction.Collaborators).is_blacklisted = true ∧
    (Prediction.predict
      { is_blacklisted := true, extract_features := .ok [],
        feature_names := [], model_predict := fun _ => .ok (false, 0),
        current_version := none, cache_setex := .ok (),
        blacklist_add := .ok true, format2f := fun _ => "" }
      { ip := "8.8.8.8", userAgent := "curl/8.0", headers := [],
        fingerprintHash := "fp1" }
      none).1.isBot = true :=
  ⟨rfl,
    (predict_blacklisted_shortcut
      { is_blacklisted := true, extract_features := .ok [],
        feature_names := [], model_predict := fun _ => .ok (false, 0),
        current_version := none, cache_setex := .ok (),
        blacklist_add := .ok true, format2f := fun _ => "" }
      { ip := "8.8.8.8", userAgent := "curl/8.0", headers := [],
        fingerprintHash := "fp1" }
      none rfl).1⟩

/-- **C2**: when the IP is not blacklisted and an exception escapes any
stage of the scoring pipeline that can raise at `predict`'s boundary
(feature extraction, or the classifier invoked on the extracted features),
`predict` converts it into the neutral decision `isBot = false`,
`confidence = 0.5`, `modelVersion = "error"` — by construction of the
embedding (a total function into `Decision`) no exception reaches
`predict`'s caller.  Cache-write and blacklist-add failures are swallowed
inside their own helpers and never escape to `predict`'s handler. -/
theorem predict_unhandled_error_returns_neutral
    (c : Prediction.Collaborators) (visitor : Prediction.VisitorData)
    (targeting : Option Prediction.CampaignTargeting)
    (h : c.is_blacklisted = false)
    (herr : (∃ e, c.extract_features = .error e) ∨
            (∃ features e, c.extract_features = .ok features ∧
              c.model_predict features = .error e)) :
    (Prediction.predict c visitor targeting).1 =
      Prediction.neutralDecision := by
  rcases herr with ⟨e, he⟩ | ⟨features, e, hok, he⟩
  · simp [Prediction.predict, Prediction.predictBody, h, he]
  · simp [Prediction.predict, Prediction.predictBody, h, hok, he]

/-- Witness for C2 at a concrete environment whose feature extractor
raises. -/
theorem predict_unhandled_error_returns_neutral_witness :
    ({ is_blacklisted := false, extract_features := .error "numpy failure",
       feature_names := [], model_predict := fun _ => .ok (false, 0),
       current_version := none, cache_setex := .ok (),
       blacklist_add := .ok true, format2f := fun _ => "" } :
      Prediction.Collaborators).is_blacklisted = false ∧
    (Prediction.predict
      { is_blacklisted := false, extract_features := .error "numpy failure",
        feature_names := [], model_predict := fun _ => .ok (false, 0),
        current_version := none, cache_setex := .ok (),
        blacklist_add := .ok true, format2f := fun _ => "" }
      { ip := "8.8.8.8", userAgent := "curl/8.0", headers := [],
        fingerprintHash := "fp1" }
      none).1 = Prediction.neutralDecision :=
  ⟨rfl,
    predict_unhandled_error_returns_neutral
      { is_blacklisted := false, extract_features := .error "numpy failure",
        feature_names := [], model_predict := fun _ => .ok (false, 0),
        current_version := none, cache_setex := .ok (),
        blacklist_add := .ok true, format2f := fun _ => "" }
      { ip := "8.8.8.8", userAgent := "curl/8.0", headers := [],
        fingerprintHash := "fp1" }
      none rfl (.inl ⟨"numpy failure", rfl⟩)⟩

/-- **C6**: the training runner is single-flight — a call made while the
`is_training` flag is set returns immediately with the flag unchanged and
without querying, loading, or training (its trace is empty); and for every
collaborator behaviour (successful completion, abort for insufficient /
unparseable samples, or an exception at any step) a call entered with the
flag clear ends with the flag cleared back to `false`. -/
theorem run_training_single_flight {Model : Type}
    (env : Training.TrainEnv Model) :
    Training.run_training env true =
      (true, .skippedAlreadyRunning, Training.emptyTrainTrace) ∧
    (Training.run_training env true).2.2.dataLoadInvoked = false ∧
    (Training.run_training env true).2.2.trainerInvoked = false ∧
    (Training.run_training env false).1 = false :=
  ⟨rfl, rfl, rfl, rfl⟩

/-- Evaluation of `dict(zip(feature_names, botIndicatorVector))`. -/
theorem botIndicatorVector_zip :
    RuleBased.feature_names.zip RuleBased.botIndicatorVector =
      [("ua_length", 0), ("ua_bot_keyword", 1), ("ua_crawler_keyword", 1),
       ("ua_missing_browser", 1), ("ua_outdated_browser", 1),
       ("ua_suspicious_pattern", 1),
       ("header_count", 0), ("has_accept_language", 0),
       ("has_accept_encoding", 0), ("has_referer", 0), ("has_dnt", 0),
       ("has_proxy_headers", 1), ("header_anomaly_score", 1),
       ("is_datacenter_ip", 1), ("geo_missing", 1), ("country_risk_score", 1),
       ("city_population_log", 0), ("timezone_mismatch", 1),
       ("is_mobile", 0), ("is_tablet", 0), ("is_desktop", 0),
       ("is_unknown_device", 1),
       ("browser_market_share", 0), ("os_market_share", 0),
       ("device_browser_mismatch", 1),
       ("request_hour", 0), ("request_day_of_week", 0),
       ("session_duration", 0), ("page_views_per_minute", 0),
       ("click_pattern_score", 0),
       ("ip_reputation_score", 1), ("asn_type_score", 1),
       ("connection_type_score", 0), ("tls_fingerprint_common", 0),
       ("tcp_fingerprint_match", 0)] := rfl

/-- The UA category tally saturates at `1` on the extremal vector. -/
theorem ua_category_score_botVector :
    RuleBased.ua_category_score RuleBased.botIndicatorVector = 1 := by
  simp only [RuleBased.ua_category_score,
    show RuleBased.featureGet RuleBased.botIndicatorVector "ua_bot_keyword" 0 = 1 from rfl,
    show RuleBased.featureGet RuleBased.botIndicatorVector "ua_crawler_keyword" 0 = 1 from rfl,
    show RuleBased.featureGet RuleBased.botIndicatorVector "ua_suspicious_pattern" 0 = 1 from rfl,
    show RuleBased.featureGet RuleBased.botIndicatorVector "ua_missing_browser" 0 = 1 from rfl,
    show RuleBased.featureGet RuleBased.botIndicatorVector "ua_outdated_browser" 0 = 1 from rfl,
    show RuleBased.featureGet RuleBased.botIndicatorVector "ua_length" 100 = 0 from rfl]
  norm_num

/-- The header category tally saturates at `1` on the extremal vector. -/
theorem header_category_score_botVector :
    RuleBased.header_category_score RuleBased.botIndicatorVector = 1 := by
  simp only [RuleBased.header_category_score,
    show RuleBased.featureGet RuleBased.botIndicatorVector "header_anomaly_score" 0 = 1 from rfl,
    show RuleBased.featureGet RuleBased.botIndicatorVector "has_accept_language" 0 = 0 from rfl,
    show RuleBased.featureGet RuleBased.botIndicatorVector "has_accept_encoding" 0 = 0 from rfl,
    show RuleBased.featureGet RuleBased.botIndicatorVector "has_referer" 0 = 0 from rfl,
    show RuleBased.featureGet RuleBased.botIndicatorVector "has_proxy_headers" 0 = 1 from rfl,
    show RuleBased.featureGet RuleBased.botIndicatorVector "header_count" 10 = 0 from rfl]
  norm_num

/-- The geo category tally saturates at `1` on the extremal vector. -/
theorem geo_category_score_botVector :
    RuleBased.geo_category_score RuleBased.botIndicatorVector = 1 := by
  simp only [RuleBased.geo_category_score,
    show RuleBased.featureGet RuleBased.botIndicatorVector "is_datacenter_ip" 0 = 1 from rfl,
    show RuleBased.featureGet RuleBased.botIndicatorVector "country_risk_score" (1 / 5) = 1 from rfl,
    show RuleBased.featureGet RuleBased.botIndicatorVector "geo_missing" 0 = 1 from rfl]
  norm_num

/-- The device category tally saturates at `1` on the extremal vector. -/
theorem device_category_score_botVector :
    RuleBased.device_category_score RuleBased.botIndicatorVector = 1 := by
  simp only [RuleBased.device_category_score,
    show RuleBased.featureGet RuleBased.botIndicatorVector "device_browser_mismatch" 0 = 1 from rfl,
    show RuleBased.featureGet RuleBased.botIndicatorVector "is_unknown_device" 0 = 1 from rfl,
    show RuleBased.featureGet RuleBased.botIndicatorVector "browser_market_share" (1 / 2) = 0 from rfl]
  norm_num

/-- The network category tally saturates at `1` on the extremal vector. -/
theorem network_category_score_botVector :
    RuleBased.network_category_score RuleBased.botIndicatorVector = 1 := by
  simp only [RuleBased.network_category_score,
    show RuleBased.featureGet RuleBased.botIndicatorVector "asn_type_score" (1 / 5) = 1 from rfl,
    show RuleBased.featureGet RuleBased.botIndicatorVector "ip_reputation_score" (1 / 2) = 1 from rfl]
  norm_num

/-- **C7**: for every feature vector the rule-based bot score — hence the
reported confidence — lies in `[0, 1]` (each category tally is capped at
`1` before weighting and the weighted sum is clamped into `[0, 1]`); and
the vector with every bot-indicator feature at `1.0` and every
human-indicator feature absent scores exactly `1`, classifying
`isBot = true` with confidence `≥ 0.9`. -/
theorem rule_based_confidence_bounds_and_bot_vector :
    (∀ features : List ℚ, 0 ≤ RuleBased.calculate_bot_score features ∧
        RuleBased.calculate_bot_score features ≤ 1) ∧
    RuleBased.calculate_bot_score RuleBased.botIndicatorVector = 1 ∧
    RuleBased.predict [RuleBased.botIndicatorVector] = [1] ∧
    (9 / 10 : ℚ) ≤ RuleBased.calculate_bot_score RuleBased.botIndicatorVector := by
  have hval : RuleBased.calculate_bot_score RuleBased.botIndicatorVector = 1 := by
    rw [RuleBased.calculate_bot_score, ua_category_score_botVector,
      header_category_score_botVector, geo_category_score_botVector,
      device_category_score_botVector, network_category_score_botVector]
    norm_num
  refine ⟨fun features => ⟨le_max_left 0 _,
    max_le (by norm_num) (min_le_left 1 _)⟩, hval, ?_, by rw [hval]; norm_num⟩
  norm_num [RuleBased.predict, hval]

/-- **C4 counterexample**: with *no* campaign targeting at all,
`country_allowed_by_user` stays `True`, so the high-risk country `CN`
(base risk `0.8`) is still reduced by 30 % to `0.56` — the claim that the
base country risk is returned unadjusted when no targeting country list
is given is false. -/
theorem country_risk_no_targeting_still_reduced :
    FeatureExtractor.country_allowed_by_user none (some "CN") = true ∧
    FeatureExtractor.base_country_risk "CN" = 4 / 5 ∧
    FeatureExtractor.country_risk_feature none (some "CN") = 14 / 25 ∧
    (14 / 25 : ℚ) ≠ 4 / 5 := by
  have hCN : "CN" ∈ FeatureExtractor.high_risk_countries := by decide
  refine ⟨rfl, ?_, ?_, by norm_num⟩
  · norm_num [FeatureExtractor.base_country_risk, hCN]
  · norm_num [FeatureExtractor.country_risk_feature,
      FeatureExtractor.get_country_risk_score,
      FeatureExtractor.country_allowed_by_user,
      FeatureExtractor.base_country_risk, hCN,
      show strTruthy (some "CN") = true from rfl]

/-- **C4 (amended)**: for every campaign targeting and visitor country,
the country-risk feature equals the amended specification: a missing
country yields `0.5`; a country excluded by a non-empty target list is
floored at `0.7`; otherwise — whether the country is in the target list
or no target list is given — the base risk is reduced by 30 % exactly
when it exceeds `0.5` and returned unadjusted otherwise. -/
theorem country_risk_feature_matches_amended_spec
    (campaign_targeting : Option FeatureExtractor.Targeting)
    (country : Option String) :
    FeatureExtractor.country_risk_feature campaign_targeting country =
      FeatureExtractor.country_risk_amended_spec campaign_targeting country := by
  by_cases ht : strTruthy country = true
  · rcases campaign_targeting with _ | targeting
    · simp only [FeatureExtractor.country_risk_feature,
        FeatureExtractor.get_country_risk_score,
        FeatureExtractor.country_allowed_by_user,
        FeatureExtractor.country_risk_amended_spec, ht,
        Bool.not_true, Bool.false_eq_true, if_false, Bool.true_and]
      by_cases hb :
          FeatureExtractor.base_country_risk (country.getD "") > 1 / 2 <;>
        simp [hb]
    · cases hE : targeting.countries.isEmpty <;>
        cases hC : targeting.countries.contains (country.getD "") <;>
        simp only [FeatureExtractor.country_risk_feature,
          FeatureExtractor.get_country_risk_score,
          FeatureExtractor.country_allowed_by_user,
          FeatureExtractor.country_risk_amended_spec, ht, hE, hC,
          Bool.not_false, Bool.not_true, Bool.true_and, Bool.false_and,
          Bool.and_self, if_true, if_false, Bool.true_eq_false,
          Bool.false_eq_true] <;>
        by_cases hb :
            FeatureExtractor.base_country_risk (country.getD "") > 1 / 2 <;>
        simp [hb]
  · rcases campaign_targeting with _ | targeting <;>
      simp [FeatureExtractor.country_risk_feature,
        FeatureExtractor.get_country_risk_score,
        FeatureExtractor.country_allowed_by_user,
        FeatureExtractor.country_risk_amended_spec, ht]

/-- The keyword loop of `_analyze_user_agent` can only assign
`chrome_headless` or `phantomjs`, so it never yields `selenium` or
`playwright`. -/
theorem uaKeywordFold_no_selenium_playwright (user_agent : String)
    (keywords : List String) (r : Headless.UAResult)
    (h : r.framework ≠ Headless.HeadlessFramework.selenium ∧
         r.framework ≠ Headless.HeadlessFramework.playwright) :
    (keywords.foldl (Headless.uaKeywordStep user_agent) r).framework ≠
        Headless.HeadlessFramework.selenium ∧
    (keywords.foldl (Headless.uaKeywordStep user_agent) r).framework ≠
        Headless.HeadlessFramework.playwright := by
  induction keywords generalizing r with
  | nil => exact h
  | cons k ks ih =>
      refine ih _ ?_
      unfold Headless.uaKeywordStep
      dsimp only
      split_ifs <;> simp_all

/-- `_analyze_user_agent` produces only `unknown`, `chrome_headless`,
`phantomjs` or `puppeteer` as the framework. -/
theorem analyze_user_agent_no_selenium_playwright (user_agent : String) :
    (Headless.analyze_user_agent user_agent).framework ≠
        Headless.HeadlessFramework.selenium ∧
    (Headless.analyze_user_agent user_agent).framework ≠
        Headless.HeadlessFramework.playwright := by
  have hfold := uaKeywordFold_no_selenium_playwright user_agent
    Headless.headless_keywords
    { is_suspicious := false, detections := [], score := 0,
      framework := .unknown } (by simp)
  unfold Headless.analyze_user_agent
  by_cases hua : user_agent = ""
  · simp [hua]
  · simp only [if_neg hua]
    split_ifs <;> try exact hfold
    all_goals
      rcases hm : searchChromeVersion user_agent.data with _ | v <;>
        simp only [hm] <;>
        first
          | exact hfold
          | (split_ifs <;> simp_all)

/-- **C10**: for every visitor signal the headless sub-detector's
framework is never `selenium` or `playwright` (only the user-agent
analysis assigns a framework, and it can only produce `chrome_headless`,
`phantomjs` or `puppeteer`), so the derived `is_selenium` and
`is_playwright` features are identically `0.0`. -/
theorem headless_framework_never_selenium_or_playwright
    (visitor : VisitorData) :
    (Headless.detect visitor).framework ≠
        Headless.HeadlessFramework.selenium ∧
    (Headless.detect visitor).framework ≠
        Headless.HeadlessFramework.playwright ∧
    (Headless.get_headless_features visitor).is_selenium = 0 ∧
    (Headless.get_headless_features visitor).is_playwright = 0 := by
  obtain ⟨hs, hp⟩ :=
    analyze_user_agent_no_selenium_playwright visitor.userAgent
  have hframework : (Headless.detect visitor).framework =
      (if (Headless.analyze_user_agent visitor.userAgent).is_suspicious &&
          decide ((Headless.analyze_user_agent visitor.userAgent).framework ≠
            Headless.HeadlessFramework.unknown) then
        (Headless.analyze_user_agent visitor.userAgent).framework
      else Headless.HeadlessFramework.unknown) := rfl
  have hds : (Headless.detect visitor).framework ≠
      Headless.HeadlessFramework.selenium := by
    rw [hframework]; split_ifs with hcond
    · exact hs
    · simp
  have hdp : (Headless.detect visitor).framework ≠
      Headless.HeadlessFramework.playwright := by
    rw [hframework]; split_ifs with hcond
    · exact hp
    · simp
  refine ⟨hds, hdp, ?_, ?_⟩
  · have : (Headless.get_headless_features visitor).is_selenium =
        (if (Headless.detect visitor).framework =
            Headless.HeadlessFramework.selenium then 1 else 0) := rfl
    rw [this, if_neg hds]
  · have : (Headless.get_headless_features visitor).is_playwright =
        (if (Headless.detect visitor).framework =
            Headless.HeadlessFramework.playwright then 1 else 0) := rfl
    rw [this, if_neg hdp]

/-- **C8**: for every visitor signal, campaign targeting (or none), and
wall-clock environment, `extract_features` returns a vector whose length
is exactly the canonical feature count 150, which equals the number of
declared feature names.  (Every entry is a rational of the embedding, so
finiteness of each value holds by construction: no NaN or infinity is
representable.) -/
theorem extract_features_length (env : FeatureExtractor.ExtractEnv)
    (data : VisitorData)
    (campaign_targeting : Option FeatureExtractor.Targeting) :
    (FeatureExtractor.extract_features env data campaign_targeting).length
      = 150 ∧
    FeatureExtractor.feature_names.length = 150 ∧
    (FeatureExtractor.extract_features env data campaign_targeting).length
      = FeatureExtractor.feature_names.length :=
  ⟨rfl, rfl, rfl⟩

end XGuard
